import Mathlib

/-!
Verification of the Form Engine of `cherub/frogcherub/forms.py` (with
`SequenceProvider` from `cherub/frogcherub/util.py` and `confirm` from
`entry.py`).  The Python classes are shallowly embedded as Lean data
types; the mutable state of a `Form` (cursor, multivalue flags, the
default providers stored in fields) is carried explicitly, and the
console (the stream of operator answers and the printed prompts) is an
explicit `World` value.  Recursive traversal functions take a fuel
argument (`Nat`) that merely bounds recursion depth; any fuel at least
the nesting depth of the schema reproduces the Python behaviour, and
all concrete scenarios use an ample fixed fuel.
-/

namespace Frogcherub

/-!
### Structural string helpers

Several core `String` functions (`replace`, `toLower`, `toInt?`,
`startsWith`, `intercalate`) are defined by well-founded recursion or
byte-level loops and do not reduce definitionally, so the Python string
operations used by the engine are re-implemented structurally over
`Char` lists with identical behaviour on the engine's inputs.
-/

/-- `sep.join(parts)`. -/
def joinSep (sep : String) : List String → String
  | [] => ""
  | [x] => x
  | x :: xs => x ++ sep ++ joinSep sep xs

/-- The character scan of `s.replace('.[', '[')` (left-to-right,
non-overlapping). -/
def replaceDotBracketChars : List Char → List Char
  | [] => []
  | [c] => [c]
  | c1 :: c2 :: rest =>
    if c1 = '.' ∧ c2 = '[' then '[' :: replaceDotBracketChars rest
    else c1 :: replaceDotBracketChars (c2 :: rest)

/-- `s.replace('.[', '[')`. -/
def replaceDotBracket (s : String) : String :=
  .mk (replaceDotBracketChars s.data)

/-- ASCII `str.lower`. -/
def lowerChar (c : Char) : Char :=
  if 'A' ≤ c ∧ c ≤ 'Z' then Char.ofNat (c.toNat + 32) else c

/-- `str.lower()` (ASCII; the engine only lowercases operator answers). -/
def pyLower (s : String) : String :=
  .mk (s.data.map lowerChar)

/-- Digit-string accumulator for `int(...)`. -/
def digitsToNat : List Char → Nat → Option Nat
  | [], acc => some acc
  | c :: rest, acc =>
    if c.isDigit then digitsToNat rest (acc * 10 + (c.toNat - 48)) else none

/-- `int(s)` (an optional sign followed by at least one digit;
Python's whitespace/underscore tolerance is irrelevant to the answers
that occur). -/
def pyInt (s : String) : Option Int :=
  match s.data with
  | [] => none
  | '-' :: rest =>
    match rest with
    | [] => none
    | _ => (digitsToNat rest 0).map (fun n => -(n : Int))
  | '+' :: rest =>
    match rest with
    | [] => none
    | _ => (digitsToNat rest 0).map (fun n => (n : Int))
  | l => (digitsToNat l 0).map (fun n => (n : Int))

/-- `s.startswith('[')`. -/
def startsBracket (s : String) : Bool :=
  match s.data with
  | '[' :: _ => true
  | _ => false

/-- JSON-like values produced by the form engine (Python scalars, lists
and dicts; `null` is Python `None`). Dicts keep insertion order, like
Python dicts. -/
inductive Value where
  | str (s : String)
  | int (n : Int)
  | bool (b : Bool)
  | null
  | arr (xs : List Value)
  | obj (kvs : List (String × Value))

/-- The type converters that occur in the source: `str`, `int`, the
custom `bool_conv` that `add_field` swaps in for `bool`, and the
`choice_checker` closure made by `add_choice_field`. -/
inductive Conv where
  | str
  | int
  | bool
  | choice (choices : List String)
deriving Repr, DecidableEq

/-- `bool_conv` from `forms.py` (lines 94-101): lowercase the input and
accept yes/y/true/t/on and no/n/false/f/off.  The source also compares
`s == 1`, which is a string-to-int comparison and always false in
Python, so it is omitted. -/
def bool_conv (s : String) : Except String Value :=
  let l := pyLower s
  if l = "yes" ∨ l = "y" ∨ l = "true" ∨ l = "t" ∨ l = "on" then
    .ok (.bool true)
  else if l = "no" ∨ l = "n" ∨ l = "false" ∨ l = "f" ∨ l = "off" then
    .ok (.bool false)
  else
    .error "value must yes or no"

/-- `choice_checker` from `add_choice_field` (lines 135-140). -/
def choice_checker (choices : List String) (s : String) : Except String Value :=
  if s ∈ choices then .ok (.str s)
  else .error ("Value must be one of: " ++ joinSep "," (choices.map (fun c => "'" ++ c ++ "'")))

/-- Run a converter on raw input text; `.error` is Python's
`ValueError`.  `int` uses standard integer parsing (`int(...)`). -/
def applyConv : Conv → String → Except String Value
  | .str, s => .ok (.str s)
  | .int, s =>
    match pyInt s with
    | some n => .ok (.int n)
    | none => .error ("invalid literal for int with base 10: " ++ s)
  | .bool, s => bool_conv s
  | .choice cs, s => choice_checker cs s

/-- `util.SequenceProvider`: a rotating list of default values with a
cursor (`_cursor`) and a repeat flag (`repeat`, true at construction). -/
structure SequenceProvider where
  members : List Value
  repeats : Bool
  cursor : Nat

/-- `SequenceProvider(*members)` — fresh provider, `repeat = True`,
cursor 0. -/
def SequenceProvider.new (members : List Value) : SequenceProvider :=
  { members := members, repeats := true, cursor := 0 }

/-- `SequenceProvider.__call__` (util.py lines 20-29): return `None`
when the cursor has run off the end, otherwise return the current item
and advance, wrapping to 0 when `repeat` is set. -/
def SequenceProvider.call (sp : SequenceProvider) : Option Value × SequenceProvider :=
  if sp.members.length ≤ sp.cursor then (none, sp)
  else
    let item := sp.members[sp.cursor]?
    let c := sp.cursor + 1
    let c := if sp.members.length ≤ c ∧ sp.repeats then 0 else c
    (item, { sp with cursor := c })

/-- A field's `default` entry: Python stores either a plain value or a
callable (the only callable used in the repository is
`SequenceProvider`).  Python `None` (no default) is `Option.none` at
the use sites. -/
inductive DefaultVal where
  | val (v : Value)
  | seqProvider (sp : SequenceProvider)

/-- The console: remaining operator answers, everything printed so far
(prompts, separators and error messages, in order), a deterministic
supply for `uuid.uuid4()` (whose randomness is irrelevant to every
claim), and the log of invoked caller hooks (by hook id). -/
structure World where
  inputs : List String
  output : List String
  uuidSeed : Nat
  hookLog : List String

/-- Append a hook invocation to the log (models calling a caller
supplied hook such as `entry_hook`). -/
def callHook (h : Option String) (w : World) : World :=
  match h with
  | some name => { w with hookLog := w.hookLog ++ [name] }
  | none => w

/-- Python list indexing `xs[i]` with negative-index support. -/
def pyGet {α : Type} (xs : List α) (i : Int) : Option α :=
  if 0 ≤ i then xs[i.toNat]?
  else
    let j : Int := (xs.length : Int) + i
    if 0 ≤ j then xs[j.toNat]? else none

/-- `'.'.join(...)`. -/
def joinDot (comps : List String) : String :=
  joinSep "." comps

/-- Python `repr` for the values that can appear as defaults in the
claims (strings, ints, bools, None). String escaping is not modelled
(no claim uses a default containing quotes). -/
def reprValue : Value → String
  | .str s => "'" ++ s ++ "'"
  | .int n => toString n
  | .bool b => if b then "True" else "False"
  | .null => "None"
  | .arr _ => "<list>"
  | .obj _ => "<dict>"

/-- `str.rstrip()` (whitespace only). -/
def rstrip (s : String) : String :=
  String.mk ((s.toList.reverse.dropWhile Char.isWhitespace).reverse)

/-- The prompt text built for a simple field in `_ask` (forms.py lines
431-441): the dotted path with `.[` collapsed to `[`, the default
suffix, the nullable note, the sentinel note, and a trailing `": "`. -/
def buildPrompt (fullPath : String) (default_value : Option Value)
    (nullable multivalue : Bool) (sentinel : String) : String :=
  let p := replaceDotBracket fullPath
  let p := match default_value with
    | some dv => p ++ " (default: " ++ reprValue dv ++ ")"
    | none => p
  let p := if nullable then p ++ "\n(Ctrl-D for explicit null)" else p
  let p := if multivalue then p ++ "\n(type '" ++ sentinel ++ "' to end adding values)" else p
  p ++ ": "

/-!
## The data model: `Field` and `Form`

`forms.py` stores a field as a dict whose keys depend on `field_type`
(`'autouuid'`, `'simple'`, `'object'`); here each shape is a
constructor carrying exactly the entries of the corresponding dict.
A polymorphic object field (`'object'` with `polymorphic: True`) holds
the dict `types` of candidate subforms plus `form`, a *reference* to
one of them (initially the last one created, misleadingly called
`dummy_first_form` in the source).  To model Python's reference
aliasing — every mutation through `f['form']` is visible in
`f['types']` — the embedding stores only `types` together with
`active`, the tag whose subform `f['form']` currently aliases; every
read of `f['form']` looks up `types[active]` and every write through
`f['form']` writes back to `types[active]`.

Caller hooks (functions) are represented by opaque string ids that are
appended to `World.hookLog` when invoked.

Modelled from the spec: the `done_hook` parameter of
`add_object_field`/`add_polymorphic_object_field` is used by
`test_forms.py` but absent from the `forms.py` under `src/`; following
§6 of the spec ("Optional "done" hook per object/polymorphic field,
invoked once each time that field's repetition/sub-record is
completed") object fields carry an optional `done_hook` id, invoked
exactly when the delegated subform completes (and when a nullable
object field is answered null).
-/

mutual

inductive Field where
  | autouuid (name : String) (entry_hook : Option String)
  | simple (name : String) (type' : Conv) (default : Option DefaultVal)
      (nullable : Bool) (multivalue : Bool) (sentinel : String)
      (default_last_entered : Bool) (entry_hook : Option String)
  | object (name : String) (form : Form) (nullable : Bool) (multivalue : Bool)
      (done_hook : Option String)
  | polyObject (name : String) (types : List (String × Form)) (active : String)
      (nullable : Bool) (multivalue : Bool) (done_hook : Option String)

inductive Form where
  | mk (name : String) (fields : List Field) (cursor : Int)
      (in_multivalue : Bool) (multivalue_index : Int)

end

/-- `Form(name)` — empty form, `_cursor = -1`, `_in_multivalue =
False`, `_multivalue_index = -1`. -/
def Form.new (name : String) : Form :=
  .mk name [] (-1) false (-1)

def Form.nameOf : Form → String
  | .mk n _ _ _ _ => n

def Form.fieldsList : Form → List Field
  | .mk _ fs _ _ _ => fs

/-- `self._cursor`. -/
def Form.cursor : Form → Int
  | .mk _ _ c _ _ => c

/-- `self._in_multivalue`. -/
def Form.in_multivalue : Form → Bool
  | .mk _ _ _ b _ => b

/-- `self._multivalue_index`. -/
def Form.multivalue_index : Form → Int
  | .mk _ _ _ _ i => i

/-- `len(self)` (`__len__`, which is `len(self.fields)`; the dict and
the `order` list always have the same length). -/
def Form.len (f : Form) : Nat := f.fieldsList.length

def Form.setCursor : Form → Int → Form
  | .mk n fs _ b i, c => .mk n fs c b i

/-- `_cursor_to_end`: `self._cursor = len(self) - 1`. -/
def Form._cursor_to_end (f : Form) : Form :=
  f.setCursor ((f.len : Int) - 1)

def Field.name : Field → String
  | .autouuid n _ => n
  | .simple n _ _ _ _ _ _ _ => n
  | .object n _ _ _ _ => n
  | .polyObject n _ _ _ _ _ => n

/-- `f['multivalue']` (`add_auto_uuid_field` always stores `False`). -/
def Field.multivalue : Field → Bool
  | .autouuid _ _ => false
  | .simple _ _ _ _ mv _ _ _ => mv
  | .object _ _ _ mv _ => mv
  | .polyObject _ _ _ _ mv _ => mv

/-- `f['nullable']` (`add_auto_uuid_field` always stores `False`). -/
def Field.nullable : Field → Bool
  | .autouuid _ _ => false
  | .simple _ _ _ nb _ _ _ _ => nb
  | .object _ _ nb _ _ => nb
  | .polyObject _ _ _ nb _ _ => nb

/-- `f['field_type'] == 'object'`. -/
def Field.isObjectType : Field → Bool
  | .object _ _ _ _ _ => true
  | .polyObject _ _ _ _ _ _ => true
  | _ => false

/-- Dict lookup `d[key]` on an ordered association list of subforms. -/
def lookupForm : List (String × Form) → String → Option Form
  | [], _ => none
  | (k, v) :: rest, key => if k = key then some v else lookupForm rest key

/-- Dict assignment `d[key] = g` (updates in place, keeping insertion
order; appends when the key is new, which never happens for `types`). -/
def updateFormIn : List (String × Form) → String → Form → List (String × Form)
  | [], key, g => [(key, g)]
  | (k, v) :: rest, key, g =>
    if k = key then (k, g) :: rest else (k, v) :: updateFormIn rest key g

/-- `f['form']`: the subform of an object field; for a polymorphic
field the subform currently aliased by the `form` entry, i.e.
`types[active]`.  Non-object fields have no `'form'` key (Python would
raise `KeyError`; every access in the source is guarded). -/
def Field.form : Field → Form
  | .object _ g _ _ _ => g
  | .polyObject _ types active _ _ _ => (lookupForm types active).getD (Form.new "")
  | _ => Form.new ""

/-!
## Schema construction (`add_*_field`)

Python signals a rejected build step by raising `ValueError`; here the
builders return `Except String Form` — an `.error` result produces no
new `Form`, which models "the rejecting call adds no field" (every
`raise` in the source happens before `self.fields`/`self.order` are
touched).
-/

/-- First character class of `_identifier_re`, i.e. `[-A-Za-z_$]`. -/
def identFirstChar (c : Char) : Bool :=
  c = '-' ∨ c.isAlpha ∨ c = '_' ∨ c = '$'

/-- `_identifier_re.match(name) is not None`.  `re.match` anchors only
at the *start* of the string, so this holds exactly when the first
character is in `[-A-Za-z_$]` (the `[-A-Za-z0-9_$]*` tail can always
match the empty string). -/
def identMatch (name : String) : Bool :=
  match name.toList with
  | [] => false
  | c :: _ => identFirstChar c

/-- The names already present (`name in self.fields`). -/
def Form.fieldNames (f : Form) : List String :=
  f.fieldsList.map Field.name

/-- Append a field (`self.fields[name] = f; self.order.append(name)`). -/
def Form.appendField : Form → Field → Form
  | .mk n fs c b i, fld => .mk n (fs ++ [fld]) c b i

/-- `add_auto_uuid_field` (forms.py lines 28-47). -/
def Form.add_auto_uuid_field (form : Form) (name : String)
    (entry_hook : Option String) : Except String Form :=
  if name ∈ form.fieldNames then
    .error ("Field named " ++ name ++ " already exists in this form")
  else if ¬ identMatch name then
    .error ("Field name is not a valid identifier: " ++ name)
  else
    .ok (form.appendField (.autouuid name entry_hook))

/-- `add_field` (forms.py lines 49-117).  The Python `type == bool`
swap installing `bool_conv` is pre-applied: `Conv.bool` *is*
`bool_conv`. -/
def Form.add_field (form : Form) (name : String) (type' : Conv)
    (default : Option DefaultVal) (nullable multivalue : Bool)
    (sentinel : String) (default_last : Bool) (entry_hook : Option String) :
    Except String Form :=
  if name ∈ form.fieldNames then
    .error ("Field named " ++ name ++ " already exists in this form")
  else if ¬ identMatch name then
    .error ("Field name is not a valid identifier: " ++ name)
  else if multivalue ∧ sentinel = "" then
    .error "sentinel cannot be an empty string for multivalued form fields."
  else
    .ok (form.appendField
      (.simple name type' default nullable multivalue sentinel default_last entry_hook))

/-- `add_choice_field` (forms.py lines 119-142); delegates to
`add_field` with the `choice_checker` converter and the defaults
`default_last=False`, `entry_hook=None`. -/
def Form.add_choice_field (form : Form) (name : String) (choices : List String)
    (default : Option String) (nullable multivalue : Bool) (sentinel : String) :
    Except String Form :=
  if multivalue ∧ sentinel ∈ choices then
    .error ("sentinel " ++ sentinel ++ " must not be present in choices list of multivalued choice field")
  else if (match default with | some d => decide (d ∉ choices) | none => false) then
    .error ("default value " ++ sentinel ++ " must be present in choices list of choice field")
  else
    form.add_field name (.choice choices) ((default.map (fun d => .val (.str d))))
      nullable multivalue sentinel false none

/-- `add_object_field` (forms.py lines 144-181): creates the nested
`Form(self.name + "." + name)` and stores it in the new field.  In
Python the subform is returned and the caller adds fields to it through
the shared reference; here the caller edits it through
`Form.modifySub`.  The `done_hook` parameter is modelled from the spec
(see the module comment above). -/
def Form.add_object_field (form : Form) (name : String)
    (nullable multivalue : Bool) (done_hook : Option String) : Except String Form :=
  if name ∈ form.fieldNames then
    .error ("Field named " ++ name ++ " already exists in this form")
  else if ¬ identMatch name then
    .error ("Field name is not a valid identifier: " ++ name)
  else
    .ok (form.appendField
      (.object name (Form.new (form.nameOf ++ "." ++ name)) nullable multivalue done_hook))

/-- The subform-construction loop of `add_polymorphic_object_field`
(forms.py lines 217-227): for each choice, reject blank tags and build
`Form(self.name + "." + name)` with the leading type-selector choice
field. -/
def buildPolySubforms (subName type_field : String) (type_choices : List String)
    (default_type : Option String) :
    List String → Except String (List (String × Form))
  | [] => .ok []
  | ch :: rest =>
    if ch = "" then
      .error "blank type choice not allowed. Use type default instead"
    else
      match (Form.new subName).add_choice_field type_field type_choices default_type
          false false "done" with
      | .error e => .error e
      | .ok g =>
        match buildPolySubforms subName type_field type_choices default_type rest with
        | .error e => .error e
        | .ok gs => .ok ((ch, g) :: gs)

/-- `add_polymorphic_object_field` (forms.py lines 183-242).  The
stored `form` entry starts as `dummy_first_form`, which the source
assigns on every loop iteration and therefore ends up as the *last*
choice's subform; hence `active` is the last tag. -/
def Form.add_polymorphic_object_field (form : Form) (name : String)
    (type_choices : List String) (type_field : String)
    (default_type : Option String) (nullable multivalue : Bool)
    (done_hook : Option String) : Except String Form :=
  if name ∈ form.fieldNames then
    .error ("Field named " ++ name ++ " already exists in this form")
  else if ¬ identMatch name then
    .error ("Field name is not a valid identifier: " ++ name)
  else if ¬ identMatch type_field then
    .error ("Type field name is not a valid identifier: " ++ type_field)
  else if (match default_type with | some d => decide (d ∉ type_choices) | none => false) then
    .error ("Default type not in the listed choices: " ++ (default_type.getD ""))
  else if type_choices.length < 2 then
    .error "Polymorphic object field must use at least 2 different types"
  else if type_choices.dedup.length ≠ type_choices.length then
    .error "Every choice of type for polymorphic object must be unique"
  else
    match buildPolySubforms (form.nameOf ++ "." ++ name) type_field type_choices
        default_type type_choices with
    | .error e => .error e
    | .ok subforms =>
      match type_choices.getLast? with
      | none => .error "Polymorphic object field must use at least 2 different types"
      | some lastTag =>
        .ok (form.appendField
          (.polyObject name subforms lastTag nullable multivalue done_hook))

/-- Models the caller mutating, through the reference returned by
`add_object_field`, the subform of the object field named `fieldName`
(field building happens before any fill, so only the construction-time
shape is affected). -/
def Form.modifySub (form : Form) (fieldName : String)
    (k : Form → Except String Form) : Except String Form :=
  match form with
  | .mk n fs c b i =>
    let step := fun (fld : Field) =>
      match fld with
      | .object nm g nb mv dh =>
        if nm = fieldName then
          match k g with
          | .ok g2 => Except.ok (Field.object nm g2 nb mv dh)
          | .error e => Except.error e
        else .ok fld
      | other => .ok other
    match fs.mapM step with
    | .ok fs2 => .ok (Form.mk n fs2 c b i)
    | .error e => .error e

/-- Models the caller mutating, through one of the references returned
by `add_polymorphic_object_field`, the variant subform for tag `tag` of
the polymorphic field named `fieldName`. -/
def Form.modifyPolySub (form : Form) (fieldName tag : String)
    (k : Form → Except String Form) : Except String Form :=
  match form with
  | .mk n fs c b i =>
    let step := fun (fld : Field) =>
      match fld with
      | .polyObject nm types active nb mv dh =>
        if nm = fieldName then
          match lookupForm types tag with
          | some g =>
            match k g with
            | .ok g2 => Except.ok (Field.polyObject nm (updateFormIn types tag g2) active nb mv dh)
            | .error e => Except.error e
          | none => Except.error "KeyError"
        else .ok fld
      | other => .ok other
    match fs.mapM step with
    | .ok fs2 => .ok (Form.mk n fs2 c b i)
    | .error e => .error e

/-!
## Traversal state: `_reset` and `_has_more_prompts`

Both recurse through nested subforms; the `Nat` argument is fuel
bounding the recursion depth (at fuel 0, `_reset` returns the form
unchanged and `_has_more_prompts` answers `false`; every theorem uses
fuel at least the schema depth, where both coincide with the Python
functions).
-/

/-- `_reset` (forms.py lines 308-322): cursor to start, clear the
multivalue flags, and recursively reset every subform — for a
polymorphic field all candidate subforms (its `form` alias is one of
them, so resetting the `types` dict covers the source's extra
`f['form']._reset()` call). -/
def Form._reset : Nat → Form → Form
  | 0, f => f
  | fuel + 1, .mk n fs _ _ _ =>
    let resetField := fun (fld : Field) =>
      match fld with
      | .object nm g nb mv dh => Field.object nm (Form._reset fuel g) nb mv dh
      | .polyObject nm types active nb mv dh =>
        Field.polyObject nm (types.map (fun p => (p.1, Form._reset fuel p.2))) active nb mv dh
      | other => other
    .mk n (fs.map resetField) (-1) false (-1)

/-- `_has_more_prompts` (forms.py lines 324-353). -/
def Form._has_more_prompts : Nat → Form → Bool
  | 0, _ => false
  | fuel + 1, form =>
    let fs := form.fieldsList
    if fs.length < 1 then false
    else if form.cursor < (fs.length : Int) - 1 then true
    else if form.cursor > (fs.length : Int) - 1 then false
    else
      -- we are at the last index but check to see if we are on a subform
      match pyGet fs form.cursor with
      | some f =>
        if f.isObjectType ∧ Form._has_more_prompts fuel f.form then true
        else if form.in_multivalue then true
        else false
      | none => if form.in_multivalue then true else false

/-!
## The prompt port: `input` and `entry.confirm`

`entry.confirm(prompt)` (entry.py lines 32-38) appends `" (Y/N)"` and
loops through `get_choice(str.lower, "y", "n", "yes", "no")`: each
round prints the prompt (re-`rstrip`ped plus one space by `get`) and
reads a line; a blank line or anything whose lowercasing is not one of
y/n/yes/no re-prompts; the result is whether the answer was y/yes.
-/

def confirmLoop (promptFull : String) :
    List String → List String → Except String (Bool × List String × List String)
  | [], _ => .error "out of input"
  | s :: rest, outs =>
    let outs2 := outs ++ [promptFull]
    let l := pyLower s
    if l = "y" ∨ l = "n" ∨ l = "yes" ∨ l = "no" then
      .ok (l = "y" ∨ l = "yes", rest, outs2)
    else confirmLoop promptFull rest outs2

/-- `entry.confirm`: consume inputs until a y/n/yes/no answer; errors
only when the operator input stream runs dry. -/
def entry_confirm (prompt : String) (w : World) : Except String (Bool × World) :=
  match confirmLoop (rstrip prompt ++ " (Y/N) ") w.inputs [] with
  | .ok (b, rest, outs) => .ok (b, { w with inputs := rest, output := w.output ++ outs })
  | .error e => .error e

/-!
## The simple-field answer loop

The `while not got_valid` loop of `_ask`'s `'simple'` branch (forms.py
lines 427-468).  Note a quirk kept from the source: when in a
multivalue repetition the `[index]` suffix is appended to `full_path`
*inside* the loop, so on every conversion-failure retry the displayed
path grows by another suffix.  `EOFError` (the Ctrl-D explicit-null
signal) is not modelled: operator input is a plain string stream and no
claim involves it.
-/

inductive LoopOut where
  | sentinelHit
  | gotValue (v : Value)

def askSimpleLoop (type' : Conv) (nullable multivalue inMv : Bool)
    (sentinel : String) (default_value : Option Value) (mvIndex : Int) :
    String → List String → List String →
    Except String (LoopOut × List String × List String)
  | _, [], _ => .error "out of input"
  | full_path, s :: rest, outs =>
    let full_path2 := if inMv then full_path ++ "[" ++ toString mvIndex ++ "]" else full_path
    let prompt := buildPrompt full_path2 default_value nullable multivalue sentinel
    let outs2 := outs ++ [prompt]
    if s = "" ∧ (nullable ∨ default_value.isSome) then
      .ok (.gotValue (default_value.getD .null), rest, outs2)
    else if multivalue ∧ s = sentinel then
      .ok (.sentinelHit, rest, outs2)
    else
      match applyConv type' s with
      | .ok v => .ok (.gotValue v, rest, outs2)
      | .error e => askSimpleLoop type' nullable multivalue inMv sentinel
          default_value mvIndex full_path2 rest (outs2 ++ ["Error: " ++ e])

/-- In-place list update at a nonnegative position. -/
def listSet {α : Type} : List α → Nat → α → List α
  | [], _, _ => []
  | _ :: xs, 0, a => a :: xs
  | x :: xs, n + 1, a => x :: listSet xs n a

/-- Python list assignment `xs[i] = a` with negative-index support
(mirrors `pyGet`). -/
def pySet {α : Type} (xs : List α) (i : Int) (a : α) : List α :=
  if 0 ≤ i then listSet xs i.toNat a
  else
    let j : Int := (xs.length : Int) + i
    if 0 ≤ j then listSet xs j.toNat a else xs

/-- `_ask` (forms.py lines 356-523): decide the next field, prompt
(possibly delegating into a subform), and return the (path, value)
pair together with the updated form state and console.  Python
exceptions (`ValueError` on traversal misuse, `KeyError` on a missing
polymorphic tag, and an exhausted operator input stream) are `.error`.
The first argument is recursion-depth fuel (see the module comment). -/
def Form._ask : Nat → Form → List String → World →
    Except String ((List String × Value) × Form × World)
  | 0, _, _, _ => .error "out of fuel"
  | fuel + 1, .mk fname fields cursor inMv mvIdx, parents, w =>
    if fields.length < 1 then .error "no fields to ask about" else
    let lenI : Int := (fields.length : Int)
    -- if cursor is currently pointing to a valid field, check whether it
    -- is a subfield that has more questions before incrementing
    let index : Int :=
      if cursor > -1 ∧ cursor < lenI then
        match pyGet fields cursor with
        | some f0 =>
          if (¬ f0.isObjectType) ∨ (¬ Form._has_more_prompts (fuel + 1) f0.form) then
            if ¬ inMv then cursor + 1 else cursor
          else cursor
        | none => if ¬ inMv then cursor + 1 else cursor
      else if ¬ inMv then cursor + 1 else cursor
    if lenI ≤ index then .error "no more questions to ask about; reset the form first" else
    match pyGet fields index with
    | none => .error "IndexError"
    | some f =>
      -- self._cursor = index happens here; branches below may bump it further
      let multivalue := f.multivalue
      let inMv2 := if multivalue then true else inMv
      let mvIdx2 : Int :=
        if multivalue then
          let base : Int := if ¬ inMv then -1 else mvIdx
          if (¬ f.isObjectType) ∨ f.form.cursor = -1 then base + 1 else base
        else mvIdx
      let path_comps := parents ++ [f.name]
      let full_path := joinDot path_comps
      match f with
      | .autouuid _ ehook =>
        let value := "uuid-" ++ toString w.uuidSeed
        let path_comps2 := if multivalue then path_comps ++ ["[" ++ toString mvIdx2 ++ "]"] else path_comps
        let pathStr := replaceDotBracket (joinDot path_comps2)
        let w1 : World := { w with
          uuidSeed := w.uuidSeed + 1
          output := w.output ++ ["Auto-generated " ++ pathStr ++ ": " ++ value] }
        let w2 := callHook ehook w1
        .ok ((path_comps2, .str value), .mk fname fields index inMv2 mvIdx2, w2)
      | .simple nm conv default nullable mv sentinel dle ehook =>
        let w1 : World := { w with output := w.output ++ ["-------------"] }
        -- the default is computed once, before the answer loop; calling a
        -- callable default (a SequenceProvider) advances its cursor here
        let dv := match default with
          | some (.seqProvider sp) =>
            ((sp.call).1, Field.simple nm conv (some (.seqProvider (sp.call).2)) nullable mv sentinel dle ehook)
          | some (.val v) => (some v, f)
          | none => (none, f)
        match askSimpleLoop conv nullable mv inMv2 sentinel dv.1 mvIdx2 full_path w1.inputs [] with
        | .error e => .error e
        | .ok (.sentinelHit, rest, outs) =>
          .ok ((path_comps ++ ["[None]"], .null),
               .mk fname (pySet fields index dv.2) index false (-1),
               { w1 with inputs := rest, output := w1.output ++ outs })
        | .ok (.gotValue v, rest, outs) =>
          let path2 := if mv then path_comps ++ ["[" ++ toString mvIdx2 ++ "]"] else path_comps
          let w2 : World := { w1 with inputs := rest, output := w1.output ++ outs }
          let w3 := callHook ehook w2
          let f3 :=
            if dle then
              match v with
              | .null => Field.simple nm conv none nullable mv sentinel dle ehook
              | v' => Field.simple nm conv (some (.val v')) nullable mv sentinel dle ehook
            else dv.2
          .ok ((path2, v), .mk fname (pySet fields index f3) index inMv2 mvIdx2, w3)
      | .object nm sub nb mv dhook =>
        let path_comps2 := if multivalue then path_comps ++ ["[" ++ toString mvIdx2 ++ "]"] else path_comps
        let full_path2 := if multivalue then full_path ++ "[" ++ toString mvIdx2 ++ "]" else full_path
        let deleg : World → Except String ((List String × Value) × Form × World) := fun w2 =>
          match Form._ask fuel sub path_comps2 w2 with
          | .error e => .error e
          | .ok ((comps, value), sub', w3) =>
            let completed : Bool := ! Form._has_more_prompts (fuel + 1) sub'
            let sub2 := if inMv2 && completed then Form._reset (fuel + 1) sub' else sub'
            -- Modelled from the spec: done hook fires when the delegated
            -- sub-record has just been completed
            let w4 := if completed then callHook dhook w3 else w3
            .ok ((comps, value),
                 Form.mk fname (pySet fields index (Field.object nm sub2 nb mv dhook)) index inMv2 mvIdx2, w4)
        let rest1 : World → Except String ((List String × Value) × Form × World) := fun w1 =>
          if nb ∧ sub.cursor = -1 then
            match entry_confirm (replaceDotBracket full_path2 ++ " is nullable. Enter value for it?") w1 with
            | .error e => .error e
            | .ok (false, w2) =>
              let sub2 := if inMv2 then Form._reset (fuel + 1) sub else sub._cursor_to_end
              -- Modelled from the spec: done hook also fires when the
              -- nullable object field is answered null
              let w3 := callHook dhook w2
              .ok ((path_comps2, .null),
                   Form.mk fname (pySet fields index (Field.object nm sub2 nb mv dhook)) (index + 1) inMv2 mvIdx2, w3)
            | .ok (true, w2) => deleg w2
          else deleg w1
        if multivalue ∧ sub.cursor = -1 then
          match entry_confirm (replaceDotBracket full_path ++ " is a list of values. Enter another one?") w with
          | .error e => .error e
          | .ok (false, w1) =>
            -- this is treated as hitting a sentinel
            .ok ((path_comps ++ ["[None]"], .null), Form.mk fname fields (index + 1) false mvIdx2, w1)
          | .ok (true, w1) => rest1 w1
        else rest1 w
      | .polyObject nm types active nb mv dhook =>
        let sub := (lookupForm types active).getD (Form.new "")
        let path_comps2 := if multivalue then path_comps ++ ["[" ++ toString mvIdx2 ++ "]"] else path_comps
        let full_path2 := if multivalue then full_path ++ "[" ++ toString mvIdx2 ++ "]" else full_path
        let deleg : World → Except String ((List String × Value) × Form × World) := fun w2 =>
          match Form._ask fuel sub path_comps2 w2 with
          | .error e => .error e
          | .ok ((comps, value), sub', w3) =>
            let types1 := updateFormIn types active sub'
            -- check if we just got the type for a polymorphic object (it
            -- is guaranteed to be the first question): swap the `form`
            -- alias to the selected candidate
            let swapRes : Except String (List (String × Form) × String) :=
              if sub'.cursor = 0 then
                match value with
                | .str tag =>
                  match lookupForm types1 tag with
                  | some sel =>
                    let sel1 := (Form._reset (fuel + 1) sel).setCursor 0
                    let sel2 := if ¬ Form._has_more_prompts (fuel + 1) sel1 then Form._reset (fuel + 1) sel1 else sel1
                    .ok (updateFormIn types1 tag sel2, tag)
                  | none => .error "KeyError"
                | _ => .error "KeyError"
              else .ok (types1, active)
            match swapRes with
            | .error e => .error e
            | .ok (types2, active2) =>
              -- line 519 reads the *pre-swap* local `subform`, i.e. the
              -- object aliased by the old active tag, in its current state
              let gOld := (lookupForm types2 active).getD (Form.new "")
              let completed : Bool := ! Form._has_more_prompts (fuel + 1) gOld
              let types3 := if inMv2 && completed then updateFormIn types2 active (Form._reset (fuel + 1) gOld) else types2
              let w4 := if completed then callHook dhook w3 else w3
              .ok ((comps, value),
                   Form.mk fname (pySet fields index (Field.polyObject nm types3 active2 nb mv dhook)) index inMv2 mvIdx2, w4)
        let rest1 : World → Except String ((List String × Value) × Form × World) := fun w1 =>
          if nb ∧ sub.cursor = -1 then
            match entry_confirm (replaceDotBracket full_path2 ++ " is nullable. Enter value for it?") w1 with
            | .error e => .error e
            | .ok (false, w2) =>
              let sub2 := if inMv2 then Form._reset (fuel + 1) sub else sub._cursor_to_end
              let w3 := callHook dhook w2
              .ok ((path_comps2, .null),
                   Form.mk fname (pySet fields index (Field.polyObject nm (updateFormIn types active sub2) active nb mv dhook)) (index + 1) inMv2 mvIdx2, w3)
            | .ok (true, w2) => deleg w2
          else deleg w1
        if multivalue ∧ sub.cursor = -1 then
          match entry_confirm (replaceDotBracket full_path ++ " is a list of values. Enter another one?") w with
          | .error e => .error e
          | .ok (false, w1) =>
            .ok ((path_comps ++ ["[None]"], .null), Form.mk fname fields (index + 1) false mvIdx2, w1)
          | .ok (true, w1) => rest1 w1
        else rest1 w

/-!
## The result builder and `fill`

The body of `fill`'s `for idx, field_name in enumerate(path)` loop
(forms.py lines 269-303) walks the path components, creating
intermediate dicts/lists as dictated by whether the next component is
an `[n]` index, and assigns the value at the last component; the
reserved `"[None]"` terminal marker is discarded.  The walk is
reproduced as a recursive update of the (immutable) `Value` tree.  The
engine only ever emits paths consistent with the record shape, so the
fallback branches for a shape mismatch (where Python would raise)
leave the record unchanged.
-/

/-- `int(field_name[1:-1])` for an `"[n]"` component. -/
def parseIdxStr (s : String) : Nat :=
  (digitsToNat ((s.data.drop 1).dropLast) 0).getD 0

/-- Dict assignment `cur[field_name] = value`, keeping insertion order
for an existing key. -/
def dictSet : List (String × Value) → String → Value → List (String × Value)
  | [], k, v => [(k, v)]
  | (k1, v1) :: rest, k, v =>
    if k1 = k then (k1, v) :: rest else (k1, v1) :: dictSet rest k v

def dictGet : List (String × Value) → String → Option Value
  | [], _ => none
  | (k1, v1) :: rest, k => if k1 = k then some v1 else dictGet rest k

def dictHasKey (kvs : List (String × Value)) (k : String) : Bool :=
  (dictGet kvs k).isSome

/-- One `fill` fold step: insert `value` into the record under `path`. -/
def foldInto : Value → List String → Value → Value
  | cur, [], _ => cur
  | cur, [last], value =>
    if startsBracket last then
      -- it is actually an array digit OR the user has entered the sentinel
      if last = "[None]" then cur
      else
        match cur with
        | .arr xs =>
          let k := parseIdxStr last
          -- while len(cur) < k: cur.append(None); if len(cur) == k: cur.append(value)
          if xs.length < k then .arr (xs ++ List.replicate (k - xs.length) .null ++ [value])
          else if xs.length = k then .arr (xs ++ [value])
          else .arr xs
        | other => other
    else
      match cur with
      | .obj kvs => .obj (dictSet kvs last value)
      | other => other
  | cur, c1 :: c2 :: rest, value =>
    let filler := if startsBracket c2 then Value.arr [] else Value.obj []
    if startsBracket c1 then
      match cur with
      | .arr xs =>
        let k := parseIdxStr c1
        -- while len(cur) < k + 1: cur.append(list() or dict())
        let xs2 := if xs.length < k + 1 then xs ++ List.replicate (k + 1 - xs.length) filler else xs
        match xs2[k]? with
        | some child => .arr (listSet xs2 k (foldInto child (c2 :: rest) value))
        | none => .arr xs2
      | other => other
    else
      match cur with
      | .obj kvs =>
        let kvs2 := if dictHasKey kvs c1 then kvs else kvs ++ [(c1, filler)]
        match dictGet kvs2 c1 with
        | some child => .obj (dictSet kvs2 c1 (foldInto child (c2 :: rest) value))
        | none => .obj kvs2
      | other => other

/-- The `while self._has_more_prompts()` loop of `fill` (forms.py lines
266-306), with an explicit loop-iteration bound; after the loop the
cursor tree is reset recursively.  `depth` is the recursion-depth fuel
handed to `_ask`/`_has_more_prompts`/`_reset`. -/
def Form.fillLoop (depth : Nat) : Nat → Form → Value → World →
    Except String (Value × Form × World)
  | 0, form, filled, w =>
    cond (Form._has_more_prompts depth form)
      (.error "out of fuel")
      (.ok (filled, Form._reset depth form, w))
  | m + 1, form, filled, w =>
    cond (Form._has_more_prompts depth form)
      (match Form._ask depth form [] w with
       | .error e => .error e
       | .ok ((path, value), form2, w2) =>
         Form.fillLoop depth m form2 (foldInto filled path value) w2)
      (.ok (filled, Form._reset depth form, w))

/-- `fill` (forms.py lines 257-306): returns `{}` at once for an empty
form (note: without resetting), otherwise runs the ask loop and resets
the cursor tree.  The single fuel argument serves as both the
loop-iteration bound and the recursion depth. -/
def Form.fill (fuel : Nat) (form : Form) (w : World) :
    Except String (Value × Form × World) :=
  if form.len < 1 then .ok (.obj [], form, w)
  else Form.fillLoop fuel fuel form (.obj []) w

/-- A `fill`-loop iteration: when there are more prompts and `_ask`
answers one question, the loop folds the pair into the record and
continues on the updated state. -/
theorem fillLoop_cont (depth m : Nat) (form : Form) (filled : Value) (w : World)
    (path : List String) (value : Value) (form2 : Form) (w2 : World)
    (h1 : Form._has_more_prompts depth form = true)
    (h2 : Form._ask depth form [] w = .ok ((path, value), form2, w2)) :
    Form.fillLoop depth (m + 1) form filled w =
      Form.fillLoop depth m form2 (foldInto filled path value) w2 := by
  rw [Form.fillLoop, h1, h2]
  rfl

/-- The `fill` loop ends as soon as `_has_more_prompts` is false; the
final step resets the cursor tree. -/
theorem fillLoop_exit (depth m : Nat) (form : Form) (filled : Value) (w : World)
    (h : Form._has_more_prompts depth form = false) :
    Form.fillLoop depth (m + 1) form filled w =
      .ok (filled, Form._reset depth form, w) := by
  rw [Form.fillLoop, h]
  rfl

/-- `fill` on a non-empty form runs the ask loop on an empty record. -/
theorem fill_eq_fillLoop (fuel : Nat) (form : Form) (w : World) (h : ¬ form.len < 1) :
    Form.fill fuel form w = Form.fillLoop fuel fuel form (.obj []) w := by
  rw [Form.fill, if_neg h]

/-!
## Observation helpers and concrete schemas for the claims

`mkW` is a fresh console holding the operator's scripted answers.  The
`cN...` schemas are built through the `add_*_field` builders exactly as
a caller of `forms.Form` would build them.
-/

/-- A fresh console with the given scripted operator answers. -/
def mkW (ins : List String) : World :=
  { inputs := ins, output := [], uuidSeed := 0, hookLog := [] }

/-- The record produced by a `fill`/`_ask` result. -/
def recOf (r : Except String (Value × Form × World)) : Option Value :=
  match r with | .ok (v, _, _) => some v | .error _ => none

/-- The final form state of a `fill` result. -/
def formOf (r : Except String (Value × Form × World)) : Option Form :=
  match r with | .ok (_, f, _) => some f | .error _ => none

/-- Everything printed during a `fill` result. -/
def outOf (r : Except String (Value × Form × World)) : Option (List String) :=
  match r with | .ok (_, _, w) => some w.output | .error _ => none

/-- The hook-invocation log of a `fill` result. -/
def hooksOf (r : Except String (Value × Form × World)) : Option (List String) :=
  match r with | .ok (_, _, w) => some w.hookLog | .error _ => none

/-- The updated form state of a single `_ask` result. -/
def askFormOf (r : Except String ((List String × Value) × Form × World)) : Option Form :=
  match r with | .ok (_, f, _) => some f | .error _ => none

/-- Whether a build step was rejected (Python raised `ValueError`). -/
def isErr {α : Type} (r : Except String α) : Bool :=
  match r with | .error _ => true | .ok _ => false

/-- The `active` tag of a leading polymorphic field (which candidate
subform the field's `form` entry currently aliases). -/
def firstFieldActive (f : Form) : Option String :=
  match f.fieldsList with
  | .polyObject _ _ a _ _ _ :: _ => some a
  | _ => none

/-- The rotating index of the `SequenceProvider` stored as the leading
field's default. -/
def firstFieldProviderCursor (f : Form) : Option Nat :=
  match f.fieldsList with
  | .simple _ _ (some (.seqProvider sp)) _ _ _ _ _ :: _ => some sp.cursor
  | _ => none

/-- The `default` entry of the leading field. -/
def firstFieldDefault (f : Form) : Option (Option DefaultVal) :=
  match f.fieldsList with
  | .simple _ _ d _ _ _ _ _ :: _ => some d
  | _ => none

/-- C1: a form with one polymorphic field `thing`, tags
`person`/`animal`; the person variant has fields `name` and `age : int`
and the animal variant `name` and `cry` (the caller adds them to the
returned variant subforms). -/
def c1FormE : Except String Form := do
  let f ← (Form.new "").add_polymorphic_object_field "thing" ["person", "animal"] "type" none false false none
  let f ← f.modifyPolySub "thing" "person" (fun g => g.add_field "name" .str none false false "done" false none)
  let f ← f.modifyPolySub "thing" "person" (fun g => g.add_field "age" .int none false false "done" false none)
  let f ← f.modifyPolySub "thing" "animal" (fun g => g.add_field "name" .str none false false "done" false none)
  let f ← f.modifyPolySub "thing" "animal" (fun g => g.add_field "cry" .str none false false "done" false none)
  pure f

def c1Form : Form := match c1FormE with | .ok f => f | .error _ => Form.new "ERR"

/-- C2: one string field whose default is the rotating sequence
`SequenceProvider("one", "two", "three")`. -/
def c2FormOf (sp : SequenceProvider) : Except String Form :=
  (Form.new "").add_field "test" .str (some (.seqProvider sp)) false false "done" false none

def c2Form : Form :=
  match c2FormOf (SequenceProvider.new [.str "one", .str "two", .str "three"]) with
  | .ok f => f | .error _ => Form.new "ERR"

/-- C3: one boolean field (`add_field` with `type=bool` installs
`bool_conv`). -/
def c3FormE : Except String Form :=
  (Form.new "").add_field "test" .bool none false false "done" false none

def c3Form : Form := match c3FormE with | .ok f => f | .error _ => Form.new "ERR"

/-- C4: one repeatable (multivalue) string field with sentinel
`"done"`, without a default. -/
def c4FormE : Except String Form :=
  (Form.new "").add_field "test" .str none false true "done" false none

def c4Form : Form := match c4FormE with | .ok f => f | .error _ => Form.new "ERR"

/-- C4: the same field with fixed default `"d"`. -/
def c4dFormE : Except String Form :=
  (Form.new "").add_field "test" .str (some (.val (.str "d"))) false true "done" false none

def c4dForm : Form := match c4dFormE with | .ok f => f | .error _ => Form.new "ERR"

/-- C5: one string field with `default_last=True` (`remember_last`). -/
def c5FormE : Except String Form :=
  (Form.new "").add_field "test" .str none false false "done" true none

def c5Form : Form := match c5FormE with | .ok f => f | .error _ => Form.new "ERR"

/-- C6: one plain string field. -/
def c6FormE : Except String Form :=
  (Form.new "").add_field "test" .str none false false "done" false none

def c6Form : Form := match c6FormE with | .ok f => f | .error _ => Form.new "ERR"

/-- C9: an object field `test` with a done hook and two nested string
fields, with the given nullability/repetition flags (the four scenarios
of `test_forms.py`). -/
def c9FormE (nullable multivalue : Bool) : Except String Form := do
  let f ← (Form.new "").add_object_field "test" nullable multivalue (some "done_hook")
  let f ← f.modifySub "test" (fun g => g.add_field "test1" .str none false false "done" false none)
  let f ← f.modifySub "test" (fun g => g.add_field "test2" .str none false false "done" false none)
  pure f

def c9Form (nullable multivalue : Bool) : Form :=
  match c9FormE nullable multivalue with | .ok f => f | .error _ => Form.new "ERR"

/-- C10: a nullable object field followed by a scalar field. -/
def c10aFormE : Except String Form := do
  let f ← (Form.new "").add_object_field "grp" true false none
  let f ← f.modifySub "grp" (fun g => g.add_field "inner" .str none false false "done" false none)
  let f ← f.add_field "after" .str none false false "done" false none
  pure f

def c10aForm : Form := match c10aFormE with | .ok f => f | .error _ => Form.new "ERR"

/-- C10: a repeatable object field followed by a scalar field. -/
def c10bFormE : Except String Form := do
  let f ← (Form.new "").add_object_field "grp" false true none
  let f ← f.modifySub "grp" (fun g => g.add_field "inner" .str none false false "done" false none)
  let f ← f.add_field "after" .str none false false "done" false none
  pure f

def c10bForm : Form := match c10bFormE with | .ok f => f | .error _ => Form.new "ERR"

/-- C10: a nullable object field followed by an auto-id field. -/
def c10cFormE : Except String Form := do
  let f ← (Form.new "").add_object_field "grp" true false none
  let f ← f.modifySub "grp" (fun g => g.add_field "inner" .str none false false "done" false none)
  let f ← f.add_auto_uuid_field "after" none
  pure f

def c10cForm : Form := match c10cFormE with | .ok f => f | .error _ => Form.new "ERR"

/-- The identifier grammar as the specification states it: letters,
digits, `-`, `_`, `$`, not starting with a digit — i.e. a *full* match
of `[-A-Za-z_$][-A-Za-z0-9_$]*`.  (The source only checks a prefix
match; see C8.) -/
def identGrammarFull (name : String) : Bool :=
  match name.toList with
  | [] => false
  | c :: rest => identFirstChar c && rest.all (fun d => identFirstChar d || d.isDigit)

/-- The `hasMore()` condition exactly as the claim states it: the
position is before-start, or strictly before the last field index, or
at the last index with an unfinished object/polymorphic field there,
or at the last index with a repetition pending.  The nested
"unfinished" test is the engine's own recursive check at one less
fuel. -/
def hasMoreSpecClaim (n : Nat) (form : Form) : Bool :=
  let last : Int := (form.len : Int) - 1
  let unfinishedObjectAtLast : Bool :=
    match pyGet form.fieldsList last with
    | some f => f.isObjectType && Form._has_more_prompts n f.form
    | none => false
  decide (form.cursor = -1) || decide (form.cursor < last) ||
    (decide (form.cursor = last) && unfinishedObjectAtLast) ||
    (decide (form.cursor = last) && form.in_multivalue)

/-!
## Concrete engine runs

Each `cN_run_*` theorem evaluates one complete `fill` on one of the
schemas above with a scripted operator, giving the produced record, the
final form state (after the recursive reset) and the console (prompts
printed, hooks invoked, answers left unconsumed).  The proofs chain the
ask loop one question at a time through `fillLoop_cont`/`fillLoop_exit`.
-/

theorem c1_run_person :
    Form.fill 20 c1Form (mkW ["person", "Alice", "30"]) =
      .ok ((Value.obj [("thing", (Value.obj [("type", (Value.str "person")), ("name", (Value.str "Alice")), ("age", (Value.int 30))]))]),
        (Form.mk "" [(Field.polyObject "thing" [("person", (Form.mk ".thing" [(Field.simple "type" (Conv.choice ["person", "animal"]) none false false "done" false none), (Field.simple "name" Conv.str none false false "done" false none), (Field.simple "age" Conv.int none false false "done" false none)] (-1) false (-1))), ("animal", (Form.mk ".thing" [(Field.simple "type" (Conv.choice ["person", "animal"]) none false false "done" false none), (Field.simple "name" Conv.str none false false "done" false none), (Field.simple "cry" Conv.str none false false "done" false none)] (-1) false (-1)))] "person" false false none)] (-1) false (-1)),
        (World.mk [] ["-------------", "thing.type: ", "-------------", "thing.name: ", "-------------", "thing.age: "] 0 [])) := by
  have m0 : Form._has_more_prompts 20 c1Form = true := rfl
  have s0 : Form._ask 20 c1Form [] (mkW ["person", "Alice", "30"]) =
      .ok ((["thing", "type"], (Value.str "person")), (Form.mk "" [(Field.polyObject "thing" [("person", (Form.mk ".thing" [(Field.simple "type" (Conv.choice ["person", "animal"]) none false false "done" false none), (Field.simple "name" Conv.str none false false "done" false none), (Field.simple "age" Conv.int none false false "done" false none)] 0 false (-1))), ("animal", (Form.mk ".thing" [(Field.simple "type" (Conv.choice ["person", "animal"]) none false false "done" false none), (Field.simple "name" Conv.str none false false "done" false none), (Field.simple "cry" Conv.str none false false "done" false none)] 0 false (-1)))] "person" false false none)] 0 false (-1)), (World.mk ["Alice", "30"] ["-------------", "thing.type: "] 0 [])) := rfl
  have m1 : Form._has_more_prompts 20 (Form.mk "" [(Field.polyObject "thing" [("person", (Form.mk ".thing" [(Field.simple "type" (Conv.choice ["person", "animal"]) none false false "done" false none), (Field.simple "name" Conv.str none false false "done" false none), (Field.simple "age" Conv.int none false false "done" false none)] 0 false (-1))), ("animal", (Form.mk ".thing" [(Field.simple "type" (Conv.choice ["person", "animal"]) none false false "done" false none), (Field.simple "name" Conv.str none false false "done" false none), (Field.simple "cry" Conv.str none false false "done" false none)] 0 false (-1)))] "person" false false none)] 0 false (-1)) = true := rfl
  have s1 : Form._ask 20 (Form.mk "" [(Field.polyObject "thing" [("person", (Form.mk ".thing" [(Field.simple "type" (Conv.choice ["person", "animal"]) none false false "done" false none), (Field.simple "name" Conv.str none false false "done" false none), (Field.simple "age" Conv.int none false false "done" false none)] 0 false (-1))), ("animal", (Form.mk ".thing" [(Field.simple "type" (Conv.choice ["person", "animal"]) none false false "done" false none), (Field.simple "name" Conv.str none false false "done" false none), (Field.simple "cry" Conv.str none false false "done" false none)] 0 false (-1)))] "person" false false none)] 0 false (-1)) [] (World.mk ["Alice", "30"] ["-------------", "thing.type: "] 0 []) =
      .ok ((["thing", "name"], (Value.str "Alice")), (Form.mk "" [(Field.polyObject "thing" [("person", (Form.mk ".thing" [(Field.simple "type" (Conv.choice ["person", "animal"]) none false false "done" false none), (Field.simple "name" Conv.str none false false "done" false none), (Field.simple "age" Conv.int none false false "done" false none)] 1 false (-1))), ("animal", (Form.mk ".thing" [(Field.simple "type" (Conv.choice ["person", "animal"]) none false false "done" false none), (Field.simple "name" Conv.str none false false "done" false none), (Field.simple "cry" Conv.str none false false "done" false none)] 0 false (-1)))] "person" false false none)] 0 false (-1)), (World.mk ["30"] ["-------------", "thing.type: ", "-------------", "thing.name: "] 0 [])) := rfl
  have m2 : Form._has_more_prompts 20 (Form.mk "" [(Field.polyObject "thing" [("person", (Form.mk ".thing" [(Field.simple "type" (Conv.choice ["person", "animal"]) none false false "done" false none), (Field.simple "name" Conv.str none false false "done" false none), (Field.simple "age" Conv.int none false false "done" false none)] 1 false (-1))), ("animal", (Form.mk ".thing" [(Field.simple "type" (Conv.choice ["person", "animal"]) none false false "done" false none), (Field.simple "name" Conv.str none false false "done" false none), (Field.simple "cry" Conv.str none false false "done" false none)] 0 false (-1)))] "person" false false none)] 0 false (-1)) = true := rfl
  have s2 : Form._ask 20 (Form.mk "" [(Field.polyObject "thing" [("person", (Form.mk ".thing" [(Field.simple "type" (Conv.choice ["person", "animal"]) none false false "done" false none), (Field.simple "name" Conv.str none false false "done" false none), (Field.simple "age" Conv.int none false false "done" false none)] 1 false (-1))), ("animal", (Form.mk ".thing" [(Field.simple "type" (Conv.choice ["person", "animal"]) none false false "done" false none), (Field.simple "name" Conv.str none false false "done" false none), (Field.simple "cry" Conv.str none false false "done" false none)] 0 false (-1)))] "person" false false none)] 0 false (-1)) [] (World.mk ["30"] ["-------------", "thing.type: ", "-------------", "thing.name: "] 0 []) =
      .ok ((["thing", "age"], (Value.int 30)), (Form.mk "" [(Field.polyObject "thing" [("person", (Form.mk ".thing" [(Field.simple "type" (Conv.choice ["person", "animal"]) none false false "done" false none), (Field.simple "name" Conv.str none false false "done" false none), (Field.simple "age" Conv.int none false false "done" false none)] 2 false (-1))), ("animal", (Form.mk ".thing" [(Field.simple "type" (Conv.choice ["person", "animal"]) none false false "done" false none), (Field.simple "name" Conv.str none false false "done" false none), (Field.simple "cry" Conv.str none false false "done" false none)] 0 false (-1)))] "person" false false none)] 0 false (-1)), (World.mk [] ["-------------", "thing.type: ", "-------------", "thing.name: ", "-------------", "thing.age: "] 0 [])) := rfl
  have m3 : Form._has_more_prompts 20 (Form.mk "" [(Field.polyObject "thing" [("person", (Form.mk ".thing" [(Field.simple "type" (Conv.choice ["person", "animal"]) none false false "done" false none), (Field.simple "name" Conv.str none false false "done" false none), (Field.simple "age" Conv.int none false false "done" false none)] 2 false (-1))), ("animal", (Form.mk ".thing" [(Field.simple "type" (Conv.choice ["person", "animal"]) none false false "done" false none), (Field.simple "name" Conv.str none false false "done" false none), (Field.simple "cry" Conv.str none false false "done" false none)] 0 false (-1)))] "person" false false none)] 0 false (-1)) = false := rfl
  refine (fill_eq_fillLoop 20 c1Form (mkW ["person", "Alice", "30"]) (by decide)).trans ?_
  refine (fillLoop_cont 20 19 c1Form (Value.obj []) (mkW ["person", "Alice", "30"]) ["thing", "type"] (Value.str "person") (Form.mk "" [(Field.polyObject "thing" [("person", (Form.mk ".thing" [(Field.simple "type" (Conv.choice ["person", "animal"]) none false false "done" false none), (Field.simple "name" Conv.str none false false "done" false none), (Field.simple "age" Conv.int none false false "done" false none)] 0 false (-1))), ("animal", (Form.mk ".thing" [(Field.simple "type" (Conv.choice ["person", "animal"]) none false false "done" false none), (Field.simple "name" Conv.str none false false "done" false none), (Field.simple "cry" Conv.str none false false "done" false none)] 0 false (-1)))] "person" false false none)] 0 false (-1)) (World.mk ["Alice", "30"] ["-------------", "thing.type: "] 0 []) m0 s0).trans ?_
  rw [show foldInto (Value.obj []) ["thing", "type"] (Value.str "person") = (Value.obj [("thing", (Value.obj [("type", (Value.str "person"))]))]) from rfl]
  refine (fillLoop_cont 20 18 (Form.mk "" [(Field.polyObject "thing" [("person", (Form.mk ".thing" [(Field.simple "type" (Conv.choice ["person", "animal"]) none false false "done" false none), (Field.simple "name" Conv.str none false false "done" false none), (Field.simple "age" Conv.int none false false "done" false none)] 0 false (-1))), ("animal", (Form.mk ".thing" [(Field.simple "type" (Conv.choice ["person", "animal"]) none false false "done" false none), (Field.simple "name" Conv.str none false false "done" false none), (Field.simple "cry" Conv.str none false false "done" false none)] 0 false (-1)))] "person" false false none)] 0 false (-1)) (Value.obj [("thing", (Value.obj [("type", (Value.str "person"))]))]) (World.mk ["Alice", "30"] ["-------------", "thing.type: "] 0 []) ["thing", "name"] (Value.str "Alice") (Form.mk "" [(Field.polyObject "thing" [("person", (Form.mk ".thing" [(Field.simple "type" (Conv.choice ["person", "animal"]) none false false "done" false none), (Field.simple "name" Conv.str none false false "done" false none), (Field.simple "age" Conv.int none false false "done" false none)] 1 false (-1))), ("animal", (Form.mk ".thing" [(Field.simple "type" (Conv.choice ["person", "animal"]) none false false "done" false none), (Field.simple "name" Conv.str none false false "done" false none), (Field.simple "cry" Conv.str none false false "done" false none)] 0 false (-1)))] "person" false false none)] 0 false (-1)) (World.mk ["30"] ["-------------", "thing.type: ", "-------------", "thing.name: "] 0 []) m1 s1).trans ?_
  rw [show foldInto (Value.obj [("thing", (Value.obj [("type", (Value.str "person"))]))]) ["thing", "name"] (Value.str "Alice") = (Value.obj [("thing", (Value.obj [("type", (Value.str "person")), ("name", (Value.str "Alice"))]))]) from rfl]
  refine (fillLoop_cont 20 17 (Form.mk "" [(Field.polyObject "thing" [("person", (Form.mk ".thing" [(Field.simple "type" (Conv.choice ["person", "animal"]) none false false "done" false none), (Field.simple "name" Conv.str none false false "done" false none), (Field.simple "age" Conv.int none false false "done" false none)] 1 false (-1))), ("animal", (Form.mk ".thing" [(Field.simple "type" (Conv.choice ["person", "animal"]) none false false "done" false none), (Field.simple "name" Conv.str none false false "done" false none), (Field.simple "cry" Conv.str none false false "done" false none)] 0 false (-1)))] "person" false false none)] 0 false (-1)) (Value.obj [("thing", (Value.obj [("type", (Value.str "person")), ("name", (Value.str "Alice"))]))]) (World.mk ["30"] ["-------------", "thing.type: ", "-------------", "thing.name: "] 0 []) ["thing", "age"] (Value.int 30) (Form.mk "" [(Field.polyObject "thing" [("person", (Form.mk ".thing" [(Field.simple "type" (Conv.choice ["person", "animal"]) none false false "done" false none), (Field.simple "name" Conv.str none false false "done" false none), (Field.simple "age" Conv.int none false false "done" false none)] 2 false (-1))), ("animal", (Form.mk ".thing" [(Field.simple "type" (Conv.choice ["person", "animal"]) none false false "done" false none), (Field.simple "name" Conv.str none false false "done" false none), (Field.simple "cry" Conv.str none false false "done" false none)] 0 false (-1)))] "person" false false none)] 0 false (-1)) (World.mk [] ["-------------", "thing.type: ", "-------------", "thing.name: ", "-------------", "thing.age: "] 0 []) m2 s2).trans ?_
  rw [show foldInto (Value.obj [("thing", (Value.obj [("type", (Value.str "person")), ("name", (Value.str "Alice"))]))]) ["thing", "age"] (Value.int 30) = (Value.obj [("thing", (Value.obj [("type", (Value.str "person")), ("name", (Value.str "Alice")), ("age", (Value.int 30))]))]) from rfl]
  refine (fillLoop_exit 20 16 (Form.mk "" [(Field.polyObject "thing" [("person", (Form.mk ".thing" [(Field.simple "type" (Conv.choice ["person", "animal"]) none false false "done" false none), (Field.simple "name" Conv.str none false false "done" false none), (Field.simple "age" Conv.int none false false "done" false none)] 2 false (-1))), ("animal", (Form.mk ".thing" [(Field.simple "type" (Conv.choice ["person", "animal"]) none false false "done" false none), (Field.simple "name" Conv.str none false false "done" false none), (Field.simple "cry" Conv.str none false false "done" false none)] 0 false (-1)))] "person" false false none)] 0 false (-1)) (Value.obj [("thing", (Value.obj [("type", (Value.str "person")), ("name", (Value.str "Alice")), ("age", (Value.int 30))]))]) (World.mk [] ["-------------", "thing.type: ", "-------------", "thing.name: ", "-------------", "thing.age: "] 0 []) m3).trans ?_
  rw [show Form._reset 20 (Form.mk "" [(Field.polyObject "thing" [("person", (Form.mk ".thing" [(Field.simple "type" (Conv.choice ["person", "animal"]) none false false "done" false none), (Field.simple "name" Conv.str none false false "done" false none), (Field.simple "age" Conv.int none false false "done" false none)] 2 false (-1))), ("animal", (Form.mk ".thing" [(Field.simple "type" (Conv.choice ["person", "animal"]) none false false "done" false none), (Field.simple "name" Conv.str none false false "done" false none), (Field.simple "cry" Conv.str none false false "done" false none)] 0 false (-1)))] "person" false false none)] 0 false (-1)) = (Form.mk "" [(Field.polyObject "thing" [("person", (Form.mk ".thing" [(Field.simple "type" (Conv.choice ["person", "animal"]) none false false "done" false none), (Field.simple "name" Conv.str none false false "done" false none), (Field.simple "age" Conv.int none false false "done" false none)] (-1) false (-1))), ("animal", (Form.mk ".thing" [(Field.simple "type" (Conv.choice ["person", "animal"]) none false false "done" false none), (Field.simple "name" Conv.str none false false "done" false none), (Field.simple "cry" Conv.str none false false "done" false none)] (-1) false (-1)))] "person" false false none)] (-1) false (-1)) from rfl]

theorem c1_run_animal :
    Form.fill 20 c1Form (mkW ["animal", "Rex", "Woof"]) =
      .ok ((Value.obj [("thing", (Value.obj [("type", (Value.str "animal")), ("name", (Value.str "Rex")), ("cry", (Value.str "Woof"))]))]),
        (Form.mk "" [(Field.polyObject "thing" [("person", (Form.mk ".thing" [(Field.simple "type" (Conv.choice ["person", "animal"]) none false false "done" false none), (Field.simple "name" Conv.str none false false "done" false none), (Field.simple "age" Conv.int none false false "done" false none)] (-1) false (-1))), ("animal", (Form.mk ".thing" [(Field.simple "type" (Conv.choice ["person", "animal"]) none false false "done" false none), (Field.simple "name" Conv.str none false false "done" false none), (Field.simple "cry" Conv.str none false false "done" false none)] (-1) false (-1)))] "animal" false false none)] (-1) false (-1)),
        (World.mk [] ["-------------", "thing.type: ", "-------------", "thing.name: ", "-------------", "thing.cry: "] 0 [])) := by
  have m0 : Form._has_more_prompts 20 c1Form = true := rfl
  have s0 : Form._ask 20 c1Form [] (mkW ["animal", "Rex", "Woof"]) =
      .ok ((["thing", "type"], (Value.str "animal")), (Form.mk "" [(Field.polyObject "thing" [("person", (Form.mk ".thing" [(Field.simple "type" (Conv.choice ["person", "animal"]) none false false "done" false none), (Field.simple "name" Conv.str none false false "done" false none), (Field.simple "age" Conv.int none false false "done" false none)] (-1) false (-1))), ("animal", (Form.mk ".thing" [(Field.simple "type" (Conv.choice ["person", "animal"]) none false false "done" false none), (Field.simple "name" Conv.str none false false "done" false none), (Field.simple "cry" Conv.str none false false "done" false none)] 0 false (-1)))] "animal" false false none)] 0 false (-1)), (World.mk ["Rex", "Woof"] ["-------------", "thing.type: "] 0 [])) := rfl
  have m1 : Form._has_more_prompts 20 (Form.mk "" [(Field.polyObject "thing" [("person", (Form.mk ".thing" [(Field.simple "type" (Conv.choice ["person", "animal"]) none false false "done" false none), (Field.simple "name" Conv.str none false false "done" false none), (Field.simple "age" Conv.int none false false "done" false none)] (-1) false (-1))), ("animal", (Form.mk ".thing" [(Field.simple "type" (Conv.choice ["person", "animal"]) none false false "done" false none), (Field.simple "name" Conv.str none false false "done" false none), (Field.simple "cry" Conv.str none false false "done" false none)] 0 false (-1)))] "animal" false false none)] 0 false (-1)) = true := rfl
  have s1 : Form._ask 20 (Form.mk "" [(Field.polyObject "thing" [("person", (Form.mk ".thing" [(Field.simple "type" (Conv.choice ["person", "animal"]) none false false "done" false none), (Field.simple "name" Conv.str none false false "done" false none), (Field.simple "age" Conv.int none false false "done" false none)] (-1) false (-1))), ("animal", (Form.mk ".thing" [(Field.simple "type" (Conv.choice ["person", "animal"]) none false false "done" false none), (Field.simple "name" Conv.str none false false "done" false none), (Field.simple "cry" Conv.str none false false "done" false none)] 0 false (-1)))] "animal" false false none)] 0 false (-1)) [] (World.mk ["Rex", "Woof"] ["-------------", "thing.type: "] 0 []) =
      .ok ((["thing", "name"], (Value.str "Rex")), (Form.mk "" [(Field.polyObject "thing" [("person", (Form.mk ".thing" [(Field.simple "type" (Conv.choice ["person", "animal"]) none false false "done" false none), (Field.simple "name" Conv.str none false false "done" false none), (Field.simple "age" Conv.int none false false "done" false none)] (-1) false (-1))), ("animal", (Form.mk ".thing" [(Field.simple "type" (Conv.choice ["person", "animal"]) none false false "done" false none), (Field.simple "name" Conv.str none false false "done" false none), (Field.simple "cry" Conv.str none false false "done" false none)] 1 false (-1)))] "animal" false false none)] 0 false (-1)), (World.mk ["Woof"] ["-------------", "thing.type: ", "-------------", "thing.name: "] 0 [])) := rfl
  have m2 : Form._has_more_prompts 20 (Form.mk "" [(Field.polyObject "thing" [("person", (Form.mk ".thing" [(Field.simple "type" (Conv.choice ["person", "animal"]) none false false "done" false none), (Field.simple "name" Conv.str none false false "done" false none), (Field.simple "age" Conv.int none false false "done" false none)] (-1) false (-1))), ("animal", (Form.mk ".thing" [(Field.simple "type" (Conv.choice ["person", "animal"]) none false false "done" false none), (Field.simple "name" Conv.str none false false "done" false none), (Field.simple "cry" Conv.str none false false "done" false none)] 1 false (-1)))] "animal" false false none)] 0 false (-1)) = true := rfl
  have s2 : Form._ask 20 (Form.mk "" [(Field.polyObject "thing" [("person", (Form.mk ".thing" [(Field.simple "type" (Conv.choice ["person", "animal"]) none false false "done" false none), (Field.simple "name" Conv.str none false false "done" false none), (Field.simple "age" Conv.int none false false "done" false none)] (-1) false (-1))), ("animal", (Form.mk ".thing" [(Field.simple "type" (Conv.choice ["person", "animal"]) none false false "done" false none), (Field.simple "name" Conv.str none false false "done" false none), (Field.simple "cry" Conv.str none false false "done" false none)] 1 false (-1)))] "animal" false false none)] 0 false (-1)) [] (World.mk ["Woof"] ["-------------", "thing.type: ", "-------------", "thing.name: "] 0 []) =
      .ok ((["thing", "cry"], (Value.str "Woof")), (Form.mk "" [(Field.polyObject "thing" [("person", (Form.mk ".thing" [(Field.simple "type" (Conv.choice ["person", "animal"]) none false false "done" false none), (Field.simple "name" Conv.str none false false "done" false none), (Field.simple "age" Conv.int none false false "done" false none)] (-1) false (-1))), ("animal", (Form.mk ".thing" [(Field.simple "type" (Conv.choice ["person", "animal"]) none false false "done" false none), (Field.simple "name" Conv.str none false false "done" false none), (Field.simple "cry" Conv.str none false false "done" false none)] 2 false (-1)))] "animal" false false none)] 0 false (-1)), (World.mk [] ["-------------", "thing.type: ", "-------------", "thing.name: ", "-------------", "thing.cry: "] 0 [])) := rfl
  have m3 : Form._has_more_prompts 20 (Form.mk "" [(Field.polyObject "thing" [("person", (Form.mk ".thing" [(Field.simple "type" (Conv.choice ["person", "animal"]) none false false "done" false none), (Field.simple "name" Conv.str none false false "done" false none), (Field.simple "age" Conv.int none false false "done" false none)] (-1) false (-1))), ("animal", (Form.mk ".thing" [(Field.simple "type" (Conv.choice ["person", "animal"]) none false false "done" false none), (Field.simple "name" Conv.str none false false "done" false none), (Field.simple "cry" Conv.str none false false "done" false none)] 2 false (-1)))] "animal" false false none)] 0 false (-1)) = false := rfl
  refine (fill_eq_fillLoop 20 c1Form (mkW ["animal", "Rex", "Woof"]) (by decide)).trans ?_
  refine (fillLoop_cont 20 19 c1Form (Value.obj []) (mkW ["animal", "Rex", "Woof"]) ["thing", "type"] (Value.str "animal") (Form.mk "" [(Field.polyObject "thing" [("person", (Form.mk ".thing" [(Field.simple "type" (Conv.choice ["person", "animal"]) none false false "done" false none), (Field.simple "name" Conv.str none false false "done" false none), (Field.simple "age" Conv.int none false false "done" false none)] (-1) false (-1))), ("animal", (Form.mk ".thing" [(Field.simple "type" (Conv.choice ["person", "animal"]) none false false "done" false none), (Field.simple "name" Conv.str none false false "done" false none), (Field.simple "cry" Conv.str none false false "done" false none)] 0 false (-1)))] "animal" false false none)] 0 false (-1)) (World.mk ["Rex", "Woof"] ["-------------", "thing.type: "] 0 []) m0 s0).trans ?_
  rw [show foldInto (Value.obj []) ["thing", "type"] (Value.str "animal") = (Value.obj [("thing", (Value.obj [("type", (Value.str "animal"))]))]) from rfl]
  refine (fillLoop_cont 20 18 (Form.mk "" [(Field.polyObject "thing" [("person", (Form.mk ".thing" [(Field.simple "type" (Conv.choice ["person", "animal"]) none false false "done" false none), (Field.simple "name" Conv.str none false false "done" false none), (Field.simple "age" Conv.int none false false "done" false none)] (-1) false (-1))), ("animal", (Form.mk ".thing" [(Field.simple "type" (Conv.choice ["person", "animal"]) none false false "done" false none), (Field.simple "name" Conv.str none false false "done" false none), (Field.simple "cry" Conv.str none false false "done" false none)] 0 false (-1)))] "animal" false false none)] 0 false (-1)) (Value.obj [("thing", (Value.obj [("type", (Value.str "animal"))]))]) (World.mk ["Rex", "Woof"] ["-------------", "thing.type: "] 0 []) ["thing", "name"] (Value.str "Rex") (Form.mk "" [(Field.polyObject "thing" [("person", (Form.mk ".thing" [(Field.simple "type" (Conv.choice ["person", "animal"]) none false false "done" false none), (Field.simple "name" Conv.str none false false "done" false none), (Field.simple "age" Conv.int none false false "done" false none)] (-1) false (-1))), ("animal", (Form.mk ".thing" [(Field.simple "type" (Conv.choice ["person", "animal"]) none false false "done" false none), (Field.simple "name" Conv.str none false false "done" false none), (Field.simple "cry" Conv.str none false false "done" false none)] 1 false (-1)))] "animal" false false none)] 0 false (-1)) (World.mk ["Woof"] ["-------------", "thing.type: ", "-------------", "thing.name: "] 0 []) m1 s1).trans ?_
  rw [show foldInto (Value.obj [("thing", (Value.obj [("type", (Value.str "animal"))]))]) ["thing", "name"] (Value.str "Rex") = (Value.obj [("thing", (Value.obj [("type", (Value.str "animal")), ("name", (Value.str "Rex"))]))]) from rfl]
  refine (fillLoop_cont 20 17 (Form.mk "" [(Field.polyObject "thing" [("person", (Form.mk ".thing" [(Field.simple "type" (Conv.choice ["person", "animal"]) none false false "done" false none), (Field.simple "name" Conv.str none false false "done" false none), (Field.simple "age" Conv.int none false false "done" false none)] (-1) false (-1))), ("animal", (Form.mk ".thing" [(Field.simple "type" (Conv.choice ["person", "animal"]) none false false "done" false none), (Field.simple "name" Conv.str none false false "done" false none), (Field.simple "cry" Conv.str none false false "done" false none)] 1 false (-1)))] "animal" false false none)] 0 false (-1)) (Value.obj [("thing", (Value.obj [("type", (Value.str "animal")), ("name", (Value.str "Rex"))]))]) (World.mk ["Woof"] ["-------------", "thing.type: ", "-------------", "thing.name: "] 0 []) ["thing", "cry"] (Value.str "Woof") (Form.mk "" [(Field.polyObject "thing" [("person", (Form.mk ".thing" [(Field.simple "type" (Conv.choice ["person", "animal"]) none false false "done" false none), (Field.simple "name" Conv.str none false false "done" false none), (Field.simple "age" Conv.int none false false "done" false none)] (-1) false (-1))), ("animal", (Form.mk ".thing" [(Field.simple "type" (Conv.choice ["person", "animal"]) none false false "done" false none), (Field.simple "name" Conv.str none false false "done" false none), (Field.simple "cry" Conv.str none false false "done" false none)] 2 false (-1)))] "animal" false false none)] 0 false (-1)) (World.mk [] ["-------------", "thing.type: ", "-------------", "thing.name: ", "-------------", "thing.cry: "] 0 []) m2 s2).trans ?_
  rw [show foldInto (Value.obj [("thing", (Value.obj [("type", (Value.str "animal")), ("name", (Value.str "Rex"))]))]) ["thing", "cry"] (Value.str "Woof") = (Value.obj [("thing", (Value.obj [("type", (Value.str "animal")), ("name", (Value.str "Rex")), ("cry", (Value.str "Woof"))]))]) from rfl]
  refine (fillLoop_exit 20 16 (Form.mk "" [(Field.polyObject "thing" [("person", (Form.mk ".thing" [(Field.simple "type" (Conv.choice ["person", "animal"]) none false false "done" false none), (Field.simple "name" Conv.str none false false "done" false none), (Field.simple "age" Conv.int none false false "done" false none)] (-1) false (-1))), ("animal", (Form.mk ".thing" [(Field.simple "type" (Conv.choice ["person", "animal"]) none false false "done" false none), (Field.simple "name" Conv.str none false false "done" false none), (Field.simple "cry" Conv.str none false false "done" false none)] 2 false (-1)))] "animal" false false none)] 0 false (-1)) (Value.obj [("thing", (Value.obj [("type", (Value.str "animal")), ("name", (Value.str "Rex")), ("cry", (Value.str "Woof"))]))]) (World.mk [] ["-------------", "thing.type: ", "-------------", "thing.name: ", "-------------", "thing.cry: "] 0 []) m3).trans ?_
  rw [show Form._reset 20 (Form.mk "" [(Field.polyObject "thing" [("person", (Form.mk ".thing" [(Field.simple "type" (Conv.choice ["person", "animal"]) none false false "done" false none), (Field.simple "name" Conv.str none false false "done" false none), (Field.simple "age" Conv.int none false false "done" false none)] (-1) false (-1))), ("animal", (Form.mk ".thing" [(Field.simple "type" (Conv.choice ["person", "animal"]) none false false "done" false none), (Field.simple "name" Conv.str none false false "done" false none), (Field.simple "cry" Conv.str none false false "done" false none)] 2 false (-1)))] "animal" false false none)] 0 false (-1)) = (Form.mk "" [(Field.polyObject "thing" [("person", (Form.mk ".thing" [(Field.simple "type" (Conv.choice ["person", "animal"]) none false false "done" false none), (Field.simple "name" Conv.str none false false "done" false none), (Field.simple "age" Conv.int none false false "done" false none)] (-1) false (-1))), ("animal", (Form.mk ".thing" [(Field.simple "type" (Conv.choice ["person", "animal"]) none false false "done" false none), (Field.simple "name" Conv.str none false false "done" false none), (Field.simple "cry" Conv.str none false false "done" false none)] (-1) false (-1)))] "animal" false false none)] (-1) false (-1)) from rfl]

theorem c2_run_explicit :
    Form.fill 20 c2Form (mkW ["x"]) =
      .ok ((Value.obj [("test", (Value.str "x"))]),
        (Form.mk "" [(Field.simple "test" Conv.str (some (DefaultVal.seqProvider (SequenceProvider.mk [(Value.str "one"), (Value.str "two"), (Value.str "three")] true 1))) false false "done" false none)] (-1) false (-1)),
        (World.mk [] ["-------------", "test (default: 'one'): "] 0 [])) := by
  have m0 : Form._has_more_prompts 20 c2Form = true := rfl
  have s0 : Form._ask 20 c2Form [] (mkW ["x"]) =
      .ok ((["test"], (Value.str "x")), (Form.mk "" [(Field.simple "test" Conv.str (some (DefaultVal.seqProvider (SequenceProvider.mk [(Value.str "one"), (Value.str "two"), (Value.str "three")] true 1))) false false "done" false none)] 0 false (-1)), (World.mk [] ["-------------", "test (default: 'one'): "] 0 [])) := rfl
  have m1 : Form._has_more_prompts 20 (Form.mk "" [(Field.simple "test" Conv.str (some (DefaultVal.seqProvider (SequenceProvider.mk [(Value.str "one"), (Value.str "two"), (Value.str "three")] true 1))) false false "done" false none)] 0 false (-1)) = false := rfl
  refine (fill_eq_fillLoop 20 c2Form (mkW ["x"]) (by decide)).trans ?_
  refine (fillLoop_cont 20 19 c2Form (Value.obj []) (mkW ["x"]) ["test"] (Value.str "x") (Form.mk "" [(Field.simple "test" Conv.str (some (DefaultVal.seqProvider (SequenceProvider.mk [(Value.str "one"), (Value.str "two"), (Value.str "three")] true 1))) false false "done" false none)] 0 false (-1)) (World.mk [] ["-------------", "test (default: 'one'): "] 0 []) m0 s0).trans ?_
  rw [show foldInto (Value.obj []) ["test"] (Value.str "x") = (Value.obj [("test", (Value.str "x"))]) from rfl]
  refine (fillLoop_exit 20 18 (Form.mk "" [(Field.simple "test" Conv.str (some (DefaultVal.seqProvider (SequenceProvider.mk [(Value.str "one"), (Value.str "two"), (Value.str "three")] true 1))) false false "done" false none)] 0 false (-1)) (Value.obj [("test", (Value.str "x"))]) (World.mk [] ["-------------", "test (default: 'one'): "] 0 []) m1).trans ?_
  rw [show Form._reset 20 (Form.mk "" [(Field.simple "test" Conv.str (some (DefaultVal.seqProvider (SequenceProvider.mk [(Value.str "one"), (Value.str "two"), (Value.str "three")] true 1))) false false "done" false none)] 0 false (-1)) = (Form.mk "" [(Field.simple "test" Conv.str (some (DefaultVal.seqProvider (SequenceProvider.mk [(Value.str "one"), (Value.str "two"), (Value.str "three")] true 1))) false false "done" false none)] (-1) false (-1)) from rfl]

theorem c3_run_retry :
    Form.fill 20 c3Form (mkW ["maybe", "yes"]) =
      .ok ((Value.obj [("test", (Value.bool true))]),
        (Form.mk "" [(Field.simple "test" Conv.bool none false false "done" false none)] (-1) false (-1)),
        (World.mk [] ["-------------", "test: ", "Error: value must yes or no", "test: "] 0 [])) := by
  have m0 : Form._has_more_prompts 20 c3Form = true := rfl
  have s0 : Form._ask 20 c3Form [] (mkW ["maybe", "yes"]) =
      .ok ((["test"], (Value.bool true)), (Form.mk "" [(Field.simple "test" Conv.bool none false false "done" false none)] 0 false (-1)), (World.mk [] ["-------------", "test: ", "Error: value must yes or no", "test: "] 0 [])) := rfl
  have m1 : Form._has_more_prompts 20 (Form.mk "" [(Field.simple "test" Conv.bool none false false "done" false none)] 0 false (-1)) = false := rfl
  refine (fill_eq_fillLoop 20 c3Form (mkW ["maybe", "yes"]) (by decide)).trans ?_
  refine (fillLoop_cont 20 19 c3Form (Value.obj []) (mkW ["maybe", "yes"]) ["test"] (Value.bool true) (Form.mk "" [(Field.simple "test" Conv.bool none false false "done" false none)] 0 false (-1)) (World.mk [] ["-------------", "test: ", "Error: value must yes or no", "test: "] 0 []) m0 s0).trans ?_
  rw [show foldInto (Value.obj []) ["test"] (Value.bool true) = (Value.obj [("test", (Value.bool true))]) from rfl]
  refine (fillLoop_exit 20 18 (Form.mk "" [(Field.simple "test" Conv.bool none false false "done" false none)] 0 false (-1)) (Value.obj [("test", (Value.bool true))]) (World.mk [] ["-------------", "test: ", "Error: value must yes or no", "test: "] 0 []) m1).trans ?_
  rw [show Form._reset 20 (Form.mk "" [(Field.simple "test" Conv.bool none false false "done" false none)] 0 false (-1)) = (Form.mk "" [(Field.simple "test" Conv.bool none false false "done" false none)] (-1) false (-1)) from rfl]

theorem c3_run_direct :
    Form.fill 20 c3Form (mkW ["yes"]) =
      .ok ((Value.obj [("test", (Value.bool true))]),
        (Form.mk "" [(Field.simple "test" Conv.bool none false false "done" false none)] (-1) false (-1)),
        (World.mk [] ["-------------", "test: "] 0 [])) := by
  have m0 : Form._has_more_prompts 20 c3Form = true := rfl
  have s0 : Form._ask 20 c3Form [] (mkW ["yes"]) =
      .ok ((["test"], (Value.bool true)), (Form.mk "" [(Field.simple "test" Conv.bool none false false "done" false none)] 0 false (-1)), (World.mk [] ["-------------", "test: "] 0 [])) := rfl
  have m1 : Form._has_more_prompts 20 (Form.mk "" [(Field.simple "test" Conv.bool none false false "done" false none)] 0 false (-1)) = false := rfl
  refine (fill_eq_fillLoop 20 c3Form (mkW ["yes"]) (by decide)).trans ?_
  refine (fillLoop_cont 20 19 c3Form (Value.obj []) (mkW ["yes"]) ["test"] (Value.bool true) (Form.mk "" [(Field.simple "test" Conv.bool none false false "done" false none)] 0 false (-1)) (World.mk [] ["-------------", "test: "] 0 []) m0 s0).trans ?_
  rw [show foldInto (Value.obj []) ["test"] (Value.bool true) = (Value.obj [("test", (Value.bool true))]) from rfl]
  refine (fillLoop_exit 20 18 (Form.mk "" [(Field.simple "test" Conv.bool none false false "done" false none)] 0 false (-1)) (Value.obj [("test", (Value.bool true))]) (World.mk [] ["-------------", "test: "] 0 []) m1).trans ?_
  rw [show Form._reset 20 (Form.mk "" [(Field.simple "test" Conv.bool none false false "done" false none)] 0 false (-1)) = (Form.mk "" [(Field.simple "test" Conv.bool none false false "done" false none)] (-1) false (-1)) from rfl]

theorem c4_run_done :
    Form.fill 20 c4Form (mkW ["done"]) =
      .ok ((Value.obj [("test", (Value.arr []))]),
        (Form.mk "" [(Field.simple "test" Conv.str none false true "done" false none)] (-1) false (-1)),
        (World.mk [] ["-------------", "test[0]\n(type 'done' to end adding values): "] 0 [])) := by
  have m0 : Form._has_more_prompts 20 c4Form = true := rfl
  have s0 : Form._ask 20 c4Form [] (mkW ["done"]) =
      .ok ((["test", "[None]"], Value.null), (Form.mk "" [(Field.simple "test" Conv.str none false true "done" false none)] 0 false (-1)), (World.mk [] ["-------------", "test[0]\n(type 'done' to end adding values): "] 0 [])) := rfl
  have m1 : Form._has_more_prompts 20 (Form.mk "" [(Field.simple "test" Conv.str none false true "done" false none)] 0 false (-1)) = false := rfl
  refine (fill_eq_fillLoop 20 c4Form (mkW ["done"]) (by decide)).trans ?_
  refine (fillLoop_cont 20 19 c4Form (Value.obj []) (mkW ["done"]) ["test", "[None]"] Value.null (Form.mk "" [(Field.simple "test" Conv.str none false true "done" false none)] 0 false (-1)) (World.mk [] ["-------------", "test[0]\n(type 'done' to end adding values): "] 0 []) m0 s0).trans ?_
  rw [show foldInto (Value.obj []) ["test", "[None]"] Value.null = (Value.obj [("test", (Value.arr []))]) from rfl]
  refine (fillLoop_exit 20 18 (Form.mk "" [(Field.simple "test" Conv.str none false true "done" false none)] 0 false (-1)) (Value.obj [("test", (Value.arr []))]) (World.mk [] ["-------------", "test[0]\n(type 'done' to end adding values): "] 0 []) m1).trans ?_
  rw [show Form._reset 20 (Form.mk "" [(Field.simple "test" Conv.str none false true "done" false none)] 0 false (-1)) = (Form.mk "" [(Field.simple "test" Conv.str none false true "done" false none)] (-1) false (-1)) from rfl]

theorem c4_run_ab :
    Form.fill 20 c4Form (mkW ["a", "b", "done"]) =
      .ok ((Value.obj [("test", (Value.arr [(Value.str "a"), (Value.str "b")]))]),
        (Form.mk "" [(Field.simple "test" Conv.str none false true "done" false none)] (-1) false (-1)),
        (World.mk [] ["-------------", "test[0]\n(type 'done' to end adding values): ", "-------------", "test[1]\n(type 'done' to end adding values): ", "-------------", "test[2]\n(type 'done' to end adding values): "] 0 [])) := by
  have m0 : Form._has_more_prompts 20 c4Form = true := rfl
  have s0 : Form._ask 20 c4Form [] (mkW ["a", "b", "done"]) =
      .ok ((["test", "[0]"], (Value.str "a")), (Form.mk "" [(Field.simple "test" Conv.str none false true "done" false none)] 0 true 0), (World.mk ["b", "done"] ["-------------", "test[0]\n(type 'done' to end adding values): "] 0 [])) := rfl
  have m1 : Form._has_more_prompts 20 (Form.mk "" [(Field.simple "test" Conv.str none false true "done" false none)] 0 true 0) = true := rfl
  have s1 : Form._ask 20 (Form.mk "" [(Field.simple "test" Conv.str none false true "done" false none)] 0 true 0) [] (World.mk ["b", "done"] ["-------------", "test[0]\n(type 'done' to end adding values): "] 0 []) =
      .ok ((["test", "[1]"], (Value.str "b")), (Form.mk "" [(Field.simple "test" Conv.str none false true "done" false none)] 0 true 1), (World.mk ["done"] ["-------------", "test[0]\n(type 'done' to end adding values): ", "-------------", "test[1]\n(type 'done' to end adding values): "] 0 [])) := rfl
  have m2 : Form._has_more_prompts 20 (Form.mk "" [(Field.simple "test" Conv.str none false true "done" false none)] 0 true 1) = true := rfl
  have s2 : Form._ask 20 (Form.mk "" [(Field.simple "test" Conv.str none false true "done" false none)] 0 true 1) [] (World.mk ["done"] ["-------------", "test[0]\n(type 'done' to end adding values): ", "-------------", "test[1]\n(type 'done' to end adding values): "] 0 []) =
      .ok ((["test", "[None]"], Value.null), (Form.mk "" [(Field.simple "test" Conv.str none false true "done" false none)] 0 false (-1)), (World.mk [] ["-------------", "test[0]\n(type 'done' to end adding values): ", "-------------", "test[1]\n(type 'done' to end adding values): ", "-------------", "test[2]\n(type 'done' to end adding values): "] 0 [])) := rfl
  have m3 : Form._has_more_prompts 20 (Form.mk "" [(Field.simple "test" Conv.str none false true "done" false none)] 0 false (-1)) = false := rfl
  refine (fill_eq_fillLoop 20 c4Form (mkW ["a", "b", "done"]) (by decide)).trans ?_
  refine (fillLoop_cont 20 19 c4Form (Value.obj []) (mkW ["a", "b", "done"]) ["test", "[0]"] (Value.str "a") (Form.mk "" [(Field.simple "test" Conv.str none false true "done" false none)] 0 true 0) (World.mk ["b", "done"] ["-------------", "test[0]\n(type 'done' to end adding values): "] 0 []) m0 s0).trans ?_
  rw [show foldInto (Value.obj []) ["test", "[0]"] (Value.str "a") = (Value.obj [("test", (Value.arr [(Value.str "a")]))]) from rfl]
  refine (fillLoop_cont 20 18 (Form.mk "" [(Field.simple "test" Conv.str none false true "done" false none)] 0 true 0) (Value.obj [("test", (Value.arr [(Value.str "a")]))]) (World.mk ["b", "done"] ["-------------", "test[0]\n(type 'done' to end adding values): "] 0 []) ["test", "[1]"] (Value.str "b") (Form.mk "" [(Field.simple "test" Conv.str none false true "done" false none)] 0 true 1) (World.mk ["done"] ["-------------", "test[0]\n(type 'done' to end adding values): ", "-------------", "test[1]\n(type 'done' to end adding values): "] 0 []) m1 s1).trans ?_
  rw [show foldInto (Value.obj [("test", (Value.arr [(Value.str "a")]))]) ["test", "[1]"] (Value.str "b") = (Value.obj [("test", (Value.arr [(Value.str "a"), (Value.str "b")]))]) from rfl]
  refine (fillLoop_cont 20 17 (Form.mk "" [(Field.simple "test" Conv.str none false true "done" false none)] 0 true 1) (Value.obj [("test", (Value.arr [(Value.str "a"), (Value.str "b")]))]) (World.mk ["done"] ["-------------", "test[0]\n(type 'done' to end adding values): ", "-------------", "test[1]\n(type 'done' to end adding values): "] 0 []) ["test", "[None]"] Value.null (Form.mk "" [(Field.simple "test" Conv.str none false true "done" false none)] 0 false (-1)) (World.mk [] ["-------------", "test[0]\n(type 'done' to end adding values): ", "-------------", "test[1]\n(type 'done' to end adding values): ", "-------------", "test[2]\n(type 'done' to end adding values): "] 0 []) m2 s2).trans ?_
  rw [show foldInto (Value.obj [("test", (Value.arr [(Value.str "a"), (Value.str "b")]))]) ["test", "[None]"] Value.null = (Value.obj [("test", (Value.arr [(Value.str "a"), (Value.str "b")]))]) from rfl]
  refine (fillLoop_exit 20 16 (Form.mk "" [(Field.simple "test" Conv.str none false true "done" false none)] 0 false (-1)) (Value.obj [("test", (Value.arr [(Value.str "a"), (Value.str "b")]))]) (World.mk [] ["-------------", "test[0]\n(type 'done' to end adding values): ", "-------------", "test[1]\n(type 'done' to end adding values): ", "-------------", "test[2]\n(type 'done' to end adding values): "] 0 []) m3).trans ?_
  rw [show Form._reset 20 (Form.mk "" [(Field.simple "test" Conv.str none false true "done" false none)] 0 false (-1)) = (Form.mk "" [(Field.simple "test" Conv.str none false true "done" false none)] (-1) false (-1)) from rfl]

theorem c4_run_default :
    Form.fill 20 c4dForm (mkW ["", "done"]) =
      .ok ((Value.obj [("test", (Value.arr [(Value.str "d")]))]),
        (Form.mk "" [(Field.simple "test" Conv.str (some (DefaultVal.val (Value.str "d"))) false true "done" false none)] (-1) false (-1)),
        (World.mk [] ["-------------", "test[0] (default: 'd')\n(type 'done' to end adding values): ", "-------------", "test[1] (default: 'd')\n(type 'done' to end adding values): "] 0 [])) := by
  have m0 : Form._has_more_prompts 20 c4dForm = true := rfl
  have s0 : Form._ask 20 c4dForm [] (mkW ["", "done"]) =
      .ok ((["test", "[0]"], (Value.str "d")), (Form.mk "" [(Field.simple "test" Conv.str (some (DefaultVal.val (Value.str "d"))) false true "done" false none)] 0 true 0), (World.mk ["done"] ["-------------", "test[0] (default: 'd')\n(type 'done' to end adding values): "] 0 [])) := rfl
  have m1 : Form._has_more_prompts 20 (Form.mk "" [(Field.simple "test" Conv.str (some (DefaultVal.val (Value.str "d"))) false true "done" false none)] 0 true 0) = true := rfl
  have s1 : Form._ask 20 (Form.mk "" [(Field.simple "test" Conv.str (some (DefaultVal.val (Value.str "d"))) false true "done" false none)] 0 true 0) [] (World.mk ["done"] ["-------------", "test[0] (default: 'd')\n(type 'done' to end adding values): "] 0 []) =
      .ok ((["test", "[None]"], Value.null), (Form.mk "" [(Field.simple "test" Conv.str (some (DefaultVal.val (Value.str "d"))) false true "done" false none)] 0 false (-1)), (World.mk [] ["-------------", "test[0] (default: 'd')\n(type 'done' to end adding values): ", "-------------", "test[1] (default: 'd')\n(type 'done' to end adding values): "] 0 [])) := rfl
  have m2 : Form._has_more_prompts 20 (Form.mk "" [(Field.simple "test" Conv.str (some (DefaultVal.val (Value.str "d"))) false true "done" false none)] 0 false (-1)) = false := rfl
  refine (fill_eq_fillLoop 20 c4dForm (mkW ["", "done"]) (by decide)).trans ?_
  refine (fillLoop_cont 20 19 c4dForm (Value.obj []) (mkW ["", "done"]) ["test", "[0]"] (Value.str "d") (Form.mk "" [(Field.simple "test" Conv.str (some (DefaultVal.val (Value.str "d"))) false true "done" false none)] 0 true 0) (World.mk ["done"] ["-------------", "test[0] (default: 'd')\n(type 'done' to end adding values): "] 0 []) m0 s0).trans ?_
  rw [show foldInto (Value.obj []) ["test", "[0]"] (Value.str "d") = (Value.obj [("test", (Value.arr [(Value.str "d")]))]) from rfl]
  refine (fillLoop_cont 20 18 (Form.mk "" [(Field.simple "test" Conv.str (some (DefaultVal.val (Value.str "d"))) false true "done" false none)] 0 true 0) (Value.obj [("test", (Value.arr [(Value.str "d")]))]) (World.mk ["done"] ["-------------", "test[0] (default: 'd')\n(type 'done' to end adding values): "] 0 []) ["test", "[None]"] Value.null (Form.mk "" [(Field.simple "test" Conv.str (some (DefaultVal.val (Value.str "d"))) false true "done" false none)] 0 false (-1)) (World.mk [] ["-------------", "test[0] (default: 'd')\n(type 'done' to end adding values): ", "-------------", "test[1] (default: 'd')\n(type 'done' to end adding values): "] 0 []) m1 s1).trans ?_
  rw [show foldInto (Value.obj [("test", (Value.arr [(Value.str "d")]))]) ["test", "[None]"] Value.null = (Value.obj [("test", (Value.arr [(Value.str "d")]))]) from rfl]
  refine (fillLoop_exit 20 17 (Form.mk "" [(Field.simple "test" Conv.str (some (DefaultVal.val (Value.str "d"))) false true "done" false none)] 0 false (-1)) (Value.obj [("test", (Value.arr [(Value.str "d")]))]) (World.mk [] ["-------------", "test[0] (default: 'd')\n(type 'done' to end adding values): ", "-------------", "test[1] (default: 'd')\n(type 'done' to end adding values): "] 0 []) m2).trans ?_
  rw [show Form._reset 20 (Form.mk "" [(Field.simple "test" Conv.str (some (DefaultVal.val (Value.str "d"))) false true "done" false none)] 0 false (-1)) = (Form.mk "" [(Field.simple "test" Conv.str (some (DefaultVal.val (Value.str "d"))) false true "done" false none)] (-1) false (-1)) from rfl]

theorem c5_run_first :
    Form.fill 20 c5Form (mkW ["value one"]) =
      .ok ((Value.obj [("test", (Value.str "value one"))]),
        (Form.mk "" [(Field.simple "test" Conv.str (some (DefaultVal.val (Value.str "value one"))) false false "done" true none)] (-1) false (-1)),
        (World.mk [] ["-------------", "test: "] 0 [])) := by
  have m0 : Form._has_more_prompts 20 c5Form = true := rfl
  have s0 : Form._ask 20 c5Form [] (mkW ["value one"]) =
      .ok ((["test"], (Value.str "value one")), (Form.mk "" [(Field.simple "test" Conv.str (some (DefaultVal.val (Value.str "value one"))) false false "done" true none)] 0 false (-1)), (World.mk [] ["-------------", "test: "] 0 [])) := rfl
  have m1 : Form._has_more_prompts 20 (Form.mk "" [(Field.simple "test" Conv.str (some (DefaultVal.val (Value.str "value one"))) false false "done" true none)] 0 false (-1)) = false := rfl
  refine (fill_eq_fillLoop 20 c5Form (mkW ["value one"]) (by decide)).trans ?_
  refine (fillLoop_cont 20 19 c5Form (Value.obj []) (mkW ["value one"]) ["test"] (Value.str "value one") (Form.mk "" [(Field.simple "test" Conv.str (some (DefaultVal.val (Value.str "value one"))) false false "done" true none)] 0 false (-1)) (World.mk [] ["-------------", "test: "] 0 []) m0 s0).trans ?_
  rw [show foldInto (Value.obj []) ["test"] (Value.str "value one") = (Value.obj [("test", (Value.str "value one"))]) from rfl]
  refine (fillLoop_exit 20 18 (Form.mk "" [(Field.simple "test" Conv.str (some (DefaultVal.val (Value.str "value one"))) false false "done" true none)] 0 false (-1)) (Value.obj [("test", (Value.str "value one"))]) (World.mk [] ["-------------", "test: "] 0 []) m1).trans ?_
  rw [show Form._reset 20 (Form.mk "" [(Field.simple "test" Conv.str (some (DefaultVal.val (Value.str "value one"))) false false "done" true none)] 0 false (-1)) = (Form.mk "" [(Field.simple "test" Conv.str (some (DefaultVal.val (Value.str "value one"))) false false "done" true none)] (-1) false (-1)) from rfl]

theorem c5_run_second :
    Form.fill 20 (Form.mk "" [(Field.simple "test" Conv.str (some (DefaultVal.val (Value.str "value one"))) false false "done" true none)] (-1) false (-1)) (mkW [""]) =
      .ok ((Value.obj [("test", (Value.str "value one"))]),
        (Form.mk "" [(Field.simple "test" Conv.str (some (DefaultVal.val (Value.str "value one"))) false false "done" true none)] (-1) false (-1)),
        (World.mk [] ["-------------", "test (default: 'value one'): "] 0 [])) := by
  have m0 : Form._has_more_prompts 20 (Form.mk "" [(Field.simple "test" Conv.str (some (DefaultVal.val (Value.str "value one"))) false false "done" true none)] (-1) false (-1)) = true := rfl
  have s0 : Form._ask 20 (Form.mk "" [(Field.simple "test" Conv.str (some (DefaultVal.val (Value.str "value one"))) false false "done" true none)] (-1) false (-1)) [] (mkW [""]) =
      .ok ((["test"], (Value.str "value one")), (Form.mk "" [(Field.simple "test" Conv.str (some (DefaultVal.val (Value.str "value one"))) false false "done" true none)] 0 false (-1)), (World.mk [] ["-------------", "test (default: 'value one'): "] 0 [])) := rfl
  have m1 : Form._has_more_prompts 20 (Form.mk "" [(Field.simple "test" Conv.str (some (DefaultVal.val (Value.str "value one"))) false false "done" true none)] 0 false (-1)) = false := rfl
  refine (fill_eq_fillLoop 20 (Form.mk "" [(Field.simple "test" Conv.str (some (DefaultVal.val (Value.str "value one"))) false false "done" true none)] (-1) false (-1)) (mkW [""]) (by decide)).trans ?_
  refine (fillLoop_cont 20 19 (Form.mk "" [(Field.simple "test" Conv.str (some (DefaultVal.val (Value.str "value one"))) false false "done" true none)] (-1) false (-1)) (Value.obj []) (mkW [""]) ["test"] (Value.str "value one") (Form.mk "" [(Field.simple "test" Conv.str (some (DefaultVal.val (Value.str "value one"))) false false "done" true none)] 0 false (-1)) (World.mk [] ["-------------", "test (default: 'value one'): "] 0 []) m0 s0).trans ?_
  rw [show foldInto (Value.obj []) ["test"] (Value.str "value one") = (Value.obj [("test", (Value.str "value one"))]) from rfl]
  refine (fillLoop_exit 20 18 (Form.mk "" [(Field.simple "test" Conv.str (some (DefaultVal.val (Value.str "value one"))) false false "done" true none)] 0 false (-1)) (Value.obj [("test", (Value.str "value one"))]) (World.mk [] ["-------------", "test (default: 'value one'): "] 0 []) m1).trans ?_
  rw [show Form._reset 20 (Form.mk "" [(Field.simple "test" Conv.str (some (DefaultVal.val (Value.str "value one"))) false false "done" true none)] 0 false (-1)) = (Form.mk "" [(Field.simple "test" Conv.str (some (DefaultVal.val (Value.str "value one"))) false false "done" true none)] (-1) false (-1)) from rfl]

theorem c6_run_first :
    Form.fill 20 c6Form (mkW ["x"]) =
      .ok ((Value.obj [("test", (Value.str "x"))]),
        (Form.mk "" [(Field.simple "test" Conv.str none false false "done" false none)] (-1) false (-1)),
        (World.mk [] ["-------------", "test: "] 0 [])) := by
  have m0 : Form._has_more_prompts 20 c6Form = true := rfl
  have s0 : Form._ask 20 c6Form [] (mkW ["x"]) =
      .ok ((["test"], (Value.str "x")), (Form.mk "" [(Field.simple "test" Conv.str none false false "done" false none)] 0 false (-1)), (World.mk [] ["-------------", "test: "] 0 [])) := rfl
  have m1 : Form._has_more_prompts 20 (Form.mk "" [(Field.simple "test" Conv.str none false false "done" false none)] 0 false (-1)) = false := rfl
  refine (fill_eq_fillLoop 20 c6Form (mkW ["x"]) (by decide)).trans ?_
  refine (fillLoop_cont 20 19 c6Form (Value.obj []) (mkW ["x"]) ["test"] (Value.str "x") (Form.mk "" [(Field.simple "test" Conv.str none false false "done" false none)] 0 false (-1)) (World.mk [] ["-------------", "test: "] 0 []) m0 s0).trans ?_
  rw [show foldInto (Value.obj []) ["test"] (Value.str "x") = (Value.obj [("test", (Value.str "x"))]) from rfl]
  refine (fillLoop_exit 20 18 (Form.mk "" [(Field.simple "test" Conv.str none false false "done" false none)] 0 false (-1)) (Value.obj [("test", (Value.str "x"))]) (World.mk [] ["-------------", "test: "] 0 []) m1).trans ?_
  rw [show Form._reset 20 (Form.mk "" [(Field.simple "test" Conv.str none false false "done" false none)] 0 false (-1)) = (Form.mk "" [(Field.simple "test" Conv.str none false false "done" false none)] (-1) false (-1)) from rfl]

theorem c6_run_second :
    Form.fill 20 (Form.mk "" [(Field.simple "test" Conv.str none false false "done" false none)] (-1) false (-1)) (mkW ["y"]) =
      .ok ((Value.obj [("test", (Value.str "y"))]),
        (Form.mk "" [(Field.simple "test" Conv.str none false false "done" false none)] (-1) false (-1)),
        (World.mk [] ["-------------", "test: "] 0 [])) := by
  have m0 : Form._has_more_prompts 20 (Form.mk "" [(Field.simple "test" Conv.str none false false "done" false none)] (-1) false (-1)) = true := rfl
  have s0 : Form._ask 20 (Form.mk "" [(Field.simple "test" Conv.str none false false "done" false none)] (-1) false (-1)) [] (mkW ["y"]) =
      .ok ((["test"], (Value.str "y")), (Form.mk "" [(Field.simple "test" Conv.str none false false "done" false none)] 0 false (-1)), (World.mk [] ["-------------", "test: "] 0 [])) := rfl
  have m1 : Form._has_more_prompts 20 (Form.mk "" [(Field.simple "test" Conv.str none false false "done" false none)] 0 false (-1)) = false := rfl
  refine (fill_eq_fillLoop 20 (Form.mk "" [(Field.simple "test" Conv.str none false false "done" false none)] (-1) false (-1)) (mkW ["y"]) (by decide)).trans ?_
  refine (fillLoop_cont 20 19 (Form.mk "" [(Field.simple "test" Conv.str none false false "done" false none)] (-1) false (-1)) (Value.obj []) (mkW ["y"]) ["test"] (Value.str "y") (Form.mk "" [(Field.simple "test" Conv.str none false false "done" false none)] 0 false (-1)) (World.mk [] ["-------------", "test: "] 0 []) m0 s0).trans ?_
  rw [show foldInto (Value.obj []) ["test"] (Value.str "y") = (Value.obj [("test", (Value.str "y"))]) from rfl]
  refine (fillLoop_exit 20 18 (Form.mk "" [(Field.simple "test" Conv.str none false false "done" false none)] 0 false (-1)) (Value.obj [("test", (Value.str "y"))]) (World.mk [] ["-------------", "test: "] 0 []) m1).trans ?_
  rw [show Form._reset 20 (Form.mk "" [(Field.simple "test" Conv.str none false false "done" false none)] 0 false (-1)) = (Form.mk "" [(Field.simple "test" Conv.str none false false "done" false none)] (-1) false (-1)) from rfl]

theorem c9_run_plain :
    Form.fill 20 (c9Form false false) (mkW ["answer1", "answer2"]) =
      .ok ((Value.obj [("test", (Value.obj [("test1", (Value.str "answer1")), ("test2", (Value.str "answer2"))]))]),
        (Form.mk "" [(Field.object "test" (Form.mk ".test" [(Field.simple "test1" Conv.str none false false "done" false none), (Field.simple "test2" Conv.str none false false "done" false none)] (-1) false (-1)) false false (some "done_hook"))] (-1) false (-1)),
        (World.mk [] ["-------------", "test.test1: ", "-------------", "test.test2: "] 0 ["done_hook"])) := by
  have m0 : Form._has_more_prompts 20 (c9Form false false) = true := rfl
  have s0 : Form._ask 20 (c9Form false false) [] (mkW ["answer1", "answer2"]) =
      .ok ((["test", "test1"], (Value.str "answer1")), (Form.mk "" [(Field.object "test" (Form.mk ".test" [(Field.simple "test1" Conv.str none false false "done" false none), (Field.simple "test2" Conv.str none false false "done" false none)] 0 false (-1)) false false (some "done_hook"))] 0 false (-1)), (World.mk ["answer2"] ["-------------", "test.test1: "] 0 [])) := rfl
  have m1 : Form._has_more_prompts 20 (Form.mk "" [(Field.object "test" (Form.mk ".test" [(Field.simple "test1" Conv.str none false false "done" false none), (Field.simple "test2" Conv.str none false false "done" false none)] 0 false (-1)) false false (some "done_hook"))] 0 false (-1)) = true := rfl
  have s1 : Form._ask 20 (Form.mk "" [(Field.object "test" (Form.mk ".test" [(Field.simple "test1" Conv.str none false false "done" false none), (Field.simple "test2" Conv.str none false false "done" false none)] 0 false (-1)) false false (some "done_hook"))] 0 false (-1)) [] (World.mk ["answer2"] ["-------------", "test.test1: "] 0 []) =
      .ok ((["test", "test2"], (Value.str "answer2")), (Form.mk "" [(Field.object "test" (Form.mk ".test" [(Field.simple "test1" Conv.str none false false "done" false none), (Field.simple "test2" Conv.str none false false "done" false none)] 1 false (-1)) false false (some "done_hook"))] 0 false (-1)), (World.mk [] ["-------------", "test.test1: ", "-------------", "test.test2: "] 0 ["done_hook"])) := rfl
  have m2 : Form._has_more_prompts 20 (Form.mk "" [(Field.object "test" (Form.mk ".test" [(Field.simple "test1" Conv.str none false false "done" false none), (Field.simple "test2" Conv.str none false false "done" false none)] 1 false (-1)) false false (some "done_hook"))] 0 false (-1)) = false := rfl
  refine (fill_eq_fillLoop 20 (c9Form false false) (mkW ["answer1", "answer2"]) (by decide)).trans ?_
  refine (fillLoop_cont 20 19 (c9Form false false) (Value.obj []) (mkW ["answer1", "answer2"]) ["test", "test1"] (Value.str "answer1") (Form.mk "" [(Field.object "test" (Form.mk ".test" [(Field.simple "test1" Conv.str none false false "done" false none), (Field.simple "test2" Conv.str none false false "done" false none)] 0 false (-1)) false false (some "done_hook"))] 0 false (-1)) (World.mk ["answer2"] ["-------------", "test.test1: "] 0 []) m0 s0).trans ?_
  rw [show foldInto (Value.obj []) ["test", "test1"] (Value.str "answer1") = (Value.obj [("test", (Value.obj [("test1", (Value.str "answer1"))]))]) from rfl]
  refine (fillLoop_cont 20 18 (Form.mk "" [(Field.object "test" (Form.mk ".test" [(Field.simple "test1" Conv.str none false false "done" false none), (Field.simple "test2" Conv.str none false false "done" false none)] 0 false (-1)) false false (some "done_hook"))] 0 false (-1)) (Value.obj [("test", (Value.obj [("test1", (Value.str "answer1"))]))]) (World.mk ["answer2"] ["-------------", "test.test1: "] 0 []) ["test", "test2"] (Value.str "answer2") (Form.mk "" [(Field.object "test" (Form.mk ".test" [(Field.simple "test1" Conv.str none false false "done" false none), (Field.simple "test2" Conv.str none false false "done" false none)] 1 false (-1)) false false (some "done_hook"))] 0 false (-1)) (World.mk [] ["-------------", "test.test1: ", "-------------", "test.test2: "] 0 ["done_hook"]) m1 s1).trans ?_
  rw [show foldInto (Value.obj [("test", (Value.obj [("test1", (Value.str "answer1"))]))]) ["test", "test2"] (Value.str "answer2") = (Value.obj [("test", (Value.obj [("test1", (Value.str "answer1")), ("test2", (Value.str "answer2"))]))]) from rfl]
  refine (fillLoop_exit 20 17 (Form.mk "" [(Field.object "test" (Form.mk ".test" [(Field.simple "test1" Conv.str none false false "done" false none), (Field.simple "test2" Conv.str none false false "done" false none)] 1 false (-1)) false false (some "done_hook"))] 0 false (-1)) (Value.obj [("test", (Value.obj [("test1", (Value.str "answer1")), ("test2", (Value.str "answer2"))]))]) (World.mk [] ["-------------", "test.test1: ", "-------------", "test.test2: "] 0 ["done_hook"]) m2).trans ?_
  rw [show Form._reset 20 (Form.mk "" [(Field.object "test" (Form.mk ".test" [(Field.simple "test1" Conv.str none false false "done" false none), (Field.simple "test2" Conv.str none false false "done" false none)] 1 false (-1)) false false (some "done_hook"))] 0 false (-1)) = (Form.mk "" [(Field.object "test" (Form.mk ".test" [(Field.simple "test1" Conv.str none false false "done" false none), (Field.simple "test2" Conv.str none false false "done" false none)] (-1) false (-1)) false false (some "done_hook"))] (-1) false (-1)) from rfl]

theorem c9_run_mv :
    Form.fill 20 (c9Form false true) (mkW ["yes", "answer1", "answer2", "yes", "answer3", "answer4", "no"]) =
      .ok ((Value.obj [("test", (Value.arr [(Value.obj [("test1", (Value.str "answer1")), ("test2", (Value.str "answer2"))]), (Value.obj [("test1", (Value.str "answer3")), ("test2", (Value.str "answer4"))])]))]),
        (Form.mk "" [(Field.object "test" (Form.mk ".test" [(Field.simple "test1" Conv.str none false false "done" false none), (Field.simple "test2" Conv.str none false false "done" false none)] (-1) false (-1)) false true (some "done_hook"))] (-1) false (-1)),
        (World.mk [] ["test is a list of values. Enter another one? (Y/N) ", "-------------", "test[0].test1: ", "-------------", "test[0].test2: ", "test is a list of values. Enter another one? (Y/N) ", "-------------", "test[1].test1: ", "-------------", "test[1].test2: ", "test is a list of values. Enter another one? (Y/N) "] 0 ["done_hook", "done_hook"])) := by
  have m0 : Form._has_more_prompts 20 (c9Form false true) = true := rfl
  have s0 : Form._ask 20 (c9Form false true) [] (mkW ["yes", "answer1", "answer2", "yes", "answer3", "answer4", "no"]) =
      .ok ((["test", "[0]", "test1"], (Value.str "answer1")), (Form.mk "" [(Field.object "test" (Form.mk ".test" [(Field.simple "test1" Conv.str none false false "done" false none), (Field.simple "test2" Conv.str none false false "done" false none)] 0 false (-1)) false true (some "done_hook"))] 0 true 0), (World.mk ["answer2", "yes", "answer3", "answer4", "no"] ["test is a list of values. Enter another one? (Y/N) ", "-------------", "test[0].test1: "] 0 [])) := rfl
  have m1 : Form._has_more_prompts 20 (Form.mk "" [(Field.object "test" (Form.mk ".test" [(Field.simple "test1" Conv.str none false false "done" false none), (Field.simple "test2" Conv.str none false false "done" false none)] 0 false (-1)) false true (some "done_hook"))] 0 true 0) = true := rfl
  have s1 : Form._ask 20 (Form.mk "" [(Field.object "test" (Form.mk ".test" [(Field.simple "test1" Conv.str none false false "done" false none), (Field.simple "test2" Conv.str none false false "done" false none)] 0 false (-1)) false true (some "done_hook"))] 0 true 0) [] (World.mk ["answer2", "yes", "answer3", "answer4", "no"] ["test is a list of values. Enter another one? (Y/N) ", "-------------", "test[0].test1: "] 0 []) =
      .ok ((["test", "[0]", "test2"], (Value.str "answer2")), (Form.mk "" [(Field.object "test" (Form.mk ".test" [(Field.simple "test1" Conv.str none false false "done" false none), (Field.simple "test2" Conv.str none false false "done" false none)] (-1) false (-1)) false true (some "done_hook"))] 0 true 0), (World.mk ["yes", "answer3", "answer4", "no"] ["test is a list of values. Enter another one? (Y/N) ", "-------------", "test[0].test1: ", "-------------", "test[0].test2: "] 0 ["done_hook"])) := rfl
  have m2 : Form._has_more_prompts 20 (Form.mk "" [(Field.object "test" (Form.mk ".test" [(Field.simple "test1" Conv.str none false false "done" false none), (Field.simple "test2" Conv.str none false false "done" false none)] (-1) false (-1)) false true (some "done_hook"))] 0 true 0) = true := rfl
  have s2 : Form._ask 20 (Form.mk "" [(Field.object "test" (Form.mk ".test" [(Field.simple "test1" Conv.str none false false "done" false none), (Field.simple "test2" Conv.str none false false "done" false none)] (-1) false (-1)) false true (some "done_hook"))] 0 true 0) [] (World.mk ["yes", "answer3", "answer4", "no"] ["test is a list of values. Enter another one? (Y/N) ", "-------------", "test[0].test1: ", "-------------", "test[0].test2: "] 0 ["done_hook"]) =
      .ok ((["test", "[1]", "test1"], (Value.str "answer3")), (Form.mk "" [(Field.object "test" (Form.mk ".test" [(Field.simple "test1" Conv.str none false false "done" false none), (Field.simple "test2" Conv.str none false false "done" false none)] 0 false (-1)) false true (some "done_hook"))] 0 true 1), (World.mk ["answer4", "no"] ["test is a list of values. Enter another one? (Y/N) ", "-------------", "test[0].test1: ", "-------------", "test[0].test2: ", "test is a list of values. Enter another one? (Y/N) ", "-------------", "test[1].test1: "] 0 ["done_hook"])) := rfl
  have m3 : Form._has_more_prompts 20 (Form.mk "" [(Field.object "test" (Form.mk ".test" [(Field.simple "test1" Conv.str none false false "done" false none), (Field.simple "test2" Conv.str none false false "done" false none)] 0 false (-1)) false true (some "done_hook"))] 0 true 1) = true := rfl
  have s3 : Form._ask 20 (Form.mk "" [(Field.object "test" (Form.mk ".test" [(Field.simple "test1" Conv.str none false false "done" false none), (Field.simple "test2" Conv.str none false false "done" false none)] 0 false (-1)) false true (some "done_hook"))] 0 true 1) [] (World.mk ["answer4", "no"] ["test is a list of values. Enter another one? (Y/N) ", "-------------", "test[0].test1: ", "-------------", "test[0].test2: ", "test is a list of values. Enter another one? (Y/N) ", "-------------", "test[1].test1: "] 0 ["done_hook"]) =
      .ok ((["test", "[1]", "test2"], (Value.str "answer4")), (Form.mk "" [(Field.object "test" (Form.mk ".test" [(Field.simple "test1" Conv.str none false false "done" false none), (Field.simple "test2" Conv.str none false false "done" false none)] (-1) false (-1)) false true (some "done_hook"))] 0 true 1), (World.mk ["no"] ["test is a list of values. Enter another one? (Y/N) ", "-------------", "test[0].test1: ", "-------------", "test[0].test2: ", "test is a list of values. Enter another one? (Y/N) ", "-------------", "test[1].test1: ", "-------------", "test[1].test2: "] 0 ["done_hook", "done_hook"])) := rfl
  have m4 : Form._has_more_prompts 20 (Form.mk "" [(Field.object "test" (Form.mk ".test" [(Field.simple "test1" Conv.str none false false "done" false none), (Field.simple "test2" Conv.str none false false "done" false none)] (-1) false (-1)) false true (some "done_hook"))] 0 true 1) = true := rfl
  have s4 : Form._ask 20 (Form.mk "" [(Field.object "test" (Form.mk ".test" [(Field.simple "test1" Conv.str none false false "done" false none), (Field.simple "test2" Conv.str none false false "done" false none)] (-1) false (-1)) false true (some "done_hook"))] 0 true 1) [] (World.mk ["no"] ["test is a list of values. Enter another one? (Y/N) ", "-------------", "test[0].test1: ", "-------------", "test[0].test2: ", "test is a list of values. Enter another one? (Y/N) ", "-------------", "test[1].test1: ", "-------------", "test[1].test2: "] 0 ["done_hook", "done_hook"]) =
      .ok ((["test", "[None]"], Value.null), (Form.mk "" [(Field.object "test" (Form.mk ".test" [(Field.simple "test1" Conv.str none false false "done" false none), (Field.simple "test2" Conv.str none false false "done" false none)] (-1) false (-1)) false true (some "done_hook"))] 1 false 2), (World.mk [] ["test is a list of values. Enter another one? (Y/N) ", "-------------", "test[0].test1: ", "-------------", "test[0].test2: ", "test is a list of values. Enter another one? (Y/N) ", "-------------", "test[1].test1: ", "-------------", "test[1].test2: ", "test is a list of values. Enter another one? (Y/N) "] 0 ["done_hook", "done_hook"])) := rfl
  have m5 : Form._has_more_prompts 20 (Form.mk "" [(Field.object "test" (Form.mk ".test" [(Field.simple "test1" Conv.str none false false "done" false none), (Field.simple "test2" Conv.str none false false "done" false none)] (-1) false (-1)) false true (some "done_hook"))] 1 false 2) = false := rfl
  refine (fill_eq_fillLoop 20 (c9Form false true) (mkW ["yes", "answer1", "answer2", "yes", "answer3", "answer4", "no"]) (by decide)).trans ?_
  refine (fillLoop_cont 20 19 (c9Form false true) (Value.obj []) (mkW ["yes", "answer1", "answer2", "yes", "answer3", "answer4", "no"]) ["test", "[0]", "test1"] (Value.str "answer1") (Form.mk "" [(Field.object "test" (Form.mk ".test" [(Field.simple "test1" Conv.str none false false "done" false none), (Field.simple "test2" Conv.str none false false "done" false none)] 0 false (-1)) false true (some "done_hook"))] 0 true 0) (World.mk ["answer2", "yes", "answer3", "answer4", "no"] ["test is a list of values. Enter another one? (Y/N) ", "-------------", "test[0].test1: "] 0 []) m0 s0).trans ?_
  rw [show foldInto (Value.obj []) ["test", "[0]", "test1"] (Value.str "answer1") = (Value.obj [("test", (Value.arr [(Value.obj [("test1", (Value.str "answer1"))])]))]) from rfl]
  refine (fillLoop_cont 20 18 (Form.mk "" [(Field.object "test" (Form.mk ".test" [(Field.simple "test1" Conv.str none false false "done" false none), (Field.simple "test2" Conv.str none false false "done" false none)] 0 false (-1)) false true (some "done_hook"))] 0 true 0) (Value.obj [("test", (Value.arr [(Value.obj [("test1", (Value.str "answer1"))])]))]) (World.mk ["answer2", "yes", "answer3", "answer4", "no"] ["test is a list of values. Enter another one? (Y/N) ", "-------------", "test[0].test1: "] 0 []) ["test", "[0]", "test2"] (Value.str "answer2") (Form.mk "" [(Field.object "test" (Form.mk ".test" [(Field.simple "test1" Conv.str none false false "done" false none), (Field.simple "test2" Conv.str none false false "done" false none)] (-1) false (-1)) false true (some "done_hook"))] 0 true 0) (World.mk ["yes", "answer3", "answer4", "no"] ["test is a list of values. Enter another one? (Y/N) ", "-------------", "test[0].test1: ", "-------------", "test[0].test2: "] 0 ["done_hook"]) m1 s1).trans ?_
  rw [show foldInto (Value.obj [("test", (Value.arr [(Value.obj [("test1", (Value.str "answer1"))])]))]) ["test", "[0]", "test2"] (Value.str "answer2") = (Value.obj [("test", (Value.arr [(Value.obj [("test1", (Value.str "answer1")), ("test2", (Value.str "answer2"))])]))]) from rfl]
  refine (fillLoop_cont 20 17 (Form.mk "" [(Field.object "test" (Form.mk ".test" [(Field.simple "test1" Conv.str none false false "done" false none), (Field.simple "test2" Conv.str none false false "done" false none)] (-1) false (-1)) false true (some "done_hook"))] 0 true 0) (Value.obj [("test", (Value.arr [(Value.obj [("test1", (Value.str "answer1")), ("test2", (Value.str "answer2"))])]))]) (World.mk ["yes", "answer3", "answer4", "no"] ["test is a list of values. Enter another one? (Y/N) ", "-------------", "test[0].test1: ", "-------------", "test[0].test2: "] 0 ["done_hook"]) ["test", "[1]", "test1"] (Value.str "answer3") (Form.mk "" [(Field.object "test" (Form.mk ".test" [(Field.simple "test1" Conv.str none false false "done" false none), (Field.simple "test2" Conv.str none false false "done" false none)] 0 false (-1)) false true (some "done_hook"))] 0 true 1) (World.mk ["answer4", "no"] ["test is a list of values. Enter another one? (Y/N) ", "-------------", "test[0].test1: ", "-------------", "test[0].test2: ", "test is a list of values. Enter another one? (Y/N) ", "-------------", "test[1].test1: "] 0 ["done_hook"]) m2 s2).trans ?_
  rw [show foldInto (Value.obj [("test", (Value.arr [(Value.obj [("test1", (Value.str "answer1")), ("test2", (Value.str "answer2"))])]))]) ["test", "[1]", "test1"] (Value.str "answer3") = (Value.obj [("test", (Value.arr [(Value.obj [("test1", (Value.str "answer1")), ("test2", (Value.str "answer2"))]), (Value.obj [("test1", (Value.str "answer3"))])]))]) from rfl]
  refine (fillLoop_cont 20 16 (Form.mk "" [(Field.object "test" (Form.mk ".test" [(Field.simple "test1" Conv.str none false false "done" false none), (Field.simple "test2" Conv.str none false false "done" false none)] 0 false (-1)) false true (some "done_hook"))] 0 true 1) (Value.obj [("test", (Value.arr [(Value.obj [("test1", (Value.str "answer1")), ("test2", (Value.str "answer2"))]), (Value.obj [("test1", (Value.str "answer3"))])]))]) (World.mk ["answer4", "no"] ["test is a list of values. Enter another one? (Y/N) ", "-------------", "test[0].test1: ", "-------------", "test[0].test2: ", "test is a list of values. Enter another one? (Y/N) ", "-------------", "test[1].test1: "] 0 ["done_hook"]) ["test", "[1]", "test2"] (Value.str "answer4") (Form.mk "" [(Field.object "test" (Form.mk ".test" [(Field.simple "test1" Conv.str none false false "done" false none), (Field.simple "test2" Conv.str none false false "done" false none)] (-1) false (-1)) false true (some "done_hook"))] 0 true 1) (World.mk ["no"] ["test is a list of values. Enter another one? (Y/N) ", "-------------", "test[0].test1: ", "-------------", "test[0].test2: ", "test is a list of values. Enter another one? (Y/N) ", "-------------", "test[1].test1: ", "-------------", "test[1].test2: "] 0 ["done_hook", "done_hook"]) m3 s3).trans ?_
  rw [show foldInto (Value.obj [("test", (Value.arr [(Value.obj [("test1", (Value.str "answer1")), ("test2", (Value.str "answer2"))]), (Value.obj [("test1", (Value.str "answer3"))])]))]) ["test", "[1]", "test2"] (Value.str "answer4") = (Value.obj [("test", (Value.arr [(Value.obj [("test1", (Value.str "answer1")), ("test2", (Value.str "answer2"))]), (Value.obj [("test1", (Value.str "answer3")), ("test2", (Value.str "answer4"))])]))]) from rfl]
  refine (fillLoop_cont 20 15 (Form.mk "" [(Field.object "test" (Form.mk ".test" [(Field.simple "test1" Conv.str none false false "done" false none), (Field.simple "test2" Conv.str none false false "done" false none)] (-1) false (-1)) false true (some "done_hook"))] 0 true 1) (Value.obj [("test", (Value.arr [(Value.obj [("test1", (Value.str "answer1")), ("test2", (Value.str "answer2"))]), (Value.obj [("test1", (Value.str "answer3")), ("test2", (Value.str "answer4"))])]))]) (World.mk ["no"] ["test is a list of values. Enter another one? (Y/N) ", "-------------", "test[0].test1: ", "-------------", "test[0].test2: ", "test is a list of values. Enter another one? (Y/N) ", "-------------", "test[1].test1: ", "-------------", "test[1].test2: "] 0 ["done_hook", "done_hook"]) ["test", "[None]"] Value.null (Form.mk "" [(Field.object "test" (Form.mk ".test" [(Field.simple "test1" Conv.str none false false "done" false none), (Field.simple "test2" Conv.str none false false "done" false none)] (-1) false (-1)) false true (some "done_hook"))] 1 false 2) (World.mk [] ["test is a list of values. Enter another one? (Y/N) ", "-------------", "test[0].test1: ", "-------------", "test[0].test2: ", "test is a list of values. Enter another one? (Y/N) ", "-------------", "test[1].test1: ", "-------------", "test[1].test2: ", "test is a list of values. Enter another one? (Y/N) "] 0 ["done_hook", "done_hook"]) m4 s4).trans ?_
  rw [show foldInto (Value.obj [("test", (Value.arr [(Value.obj [("test1", (Value.str "answer1")), ("test2", (Value.str "answer2"))]), (Value.obj [("test1", (Value.str "answer3")), ("test2", (Value.str "answer4"))])]))]) ["test", "[None]"] Value.null = (Value.obj [("test", (Value.arr [(Value.obj [("test1", (Value.str "answer1")), ("test2", (Value.str "answer2"))]), (Value.obj [("test1", (Value.str "answer3")), ("test2", (Value.str "answer4"))])]))]) from rfl]
  refine (fillLoop_exit 20 14 (Form.mk "" [(Field.object "test" (Form.mk ".test" [(Field.simple "test1" Conv.str none false false "done" false none), (Field.simple "test2" Conv.str none false false "done" false none)] (-1) false (-1)) false true (some "done_hook"))] 1 false 2) (Value.obj [("test", (Value.arr [(Value.obj [("test1", (Value.str "answer1")), ("test2", (Value.str "answer2"))]), (Value.obj [("test1", (Value.str "answer3")), ("test2", (Value.str "answer4"))])]))]) (World.mk [] ["test is a list of values. Enter another one? (Y/N) ", "-------------", "test[0].test1: ", "-------------", "test[0].test2: ", "test is a list of values. Enter another one? (Y/N) ", "-------------", "test[1].test1: ", "-------------", "test[1].test2: ", "test is a list of values. Enter another one? (Y/N) "] 0 ["done_hook", "done_hook"]) m5).trans ?_
  rw [show Form._reset 20 (Form.mk "" [(Field.object "test" (Form.mk ".test" [(Field.simple "test1" Conv.str none false false "done" false none), (Field.simple "test2" Conv.str none false false "done" false none)] (-1) false (-1)) false true (some "done_hook"))] 1 false 2) = (Form.mk "" [(Field.object "test" (Form.mk ".test" [(Field.simple "test1" Conv.str none false false "done" false none), (Field.simple "test2" Conv.str none false false "done" false none)] (-1) false (-1)) false true (some "done_hook"))] (-1) false (-1)) from rfl]

theorem c9_run_null :
    Form.fill 20 (c9Form true false) (mkW ["no"]) =
      .ok ((Value.obj [("test", Value.null)]),
        (Form.mk "" [(Field.object "test" (Form.mk ".test" [(Field.simple "test1" Conv.str none false false "done" false none), (Field.simple "test2" Conv.str none false false "done" false none)] (-1) false (-1)) true false (some "done_hook"))] (-1) false (-1)),
        (World.mk [] ["test is nullable. Enter value for it? (Y/N) "] 0 ["done_hook"])) := by
  have m0 : Form._has_more_prompts 20 (c9Form true false) = true := rfl
  have s0 : Form._ask 20 (c9Form true false) [] (mkW ["no"]) =
      .ok ((["test"], Value.null), (Form.mk "" [(Field.object "test" (Form.mk ".test" [(Field.simple "test1" Conv.str none false false "done" false none), (Field.simple "test2" Conv.str none false false "done" false none)] 1 false (-1)) true false (some "done_hook"))] 1 false (-1)), (World.mk [] ["test is nullable. Enter value for it? (Y/N) "] 0 ["done_hook"])) := rfl
  have m1 : Form._has_more_prompts 20 (Form.mk "" [(Field.object "test" (Form.mk ".test" [(Field.simple "test1" Conv.str none false false "done" false none), (Field.simple "test2" Conv.str none false false "done" false none)] 1 false (-1)) true false (some "done_hook"))] 1 false (-1)) = false := rfl
  refine (fill_eq_fillLoop 20 (c9Form true false) (mkW ["no"]) (by decide)).trans ?_
  refine (fillLoop_cont 20 19 (c9Form true false) (Value.obj []) (mkW ["no"]) ["test"] Value.null (Form.mk "" [(Field.object "test" (Form.mk ".test" [(Field.simple "test1" Conv.str none false false "done" false none), (Field.simple "test2" Conv.str none false false "done" false none)] 1 false (-1)) true false (some "done_hook"))] 1 false (-1)) (World.mk [] ["test is nullable. Enter value for it? (Y/N) "] 0 ["done_hook"]) m0 s0).trans ?_
  rw [show foldInto (Value.obj []) ["test"] Value.null = (Value.obj [("test", Value.null)]) from rfl]
  refine (fillLoop_exit 20 18 (Form.mk "" [(Field.object "test" (Form.mk ".test" [(Field.simple "test1" Conv.str none false false "done" false none), (Field.simple "test2" Conv.str none false false "done" false none)] 1 false (-1)) true false (some "done_hook"))] 1 false (-1)) (Value.obj [("test", Value.null)]) (World.mk [] ["test is nullable. Enter value for it? (Y/N) "] 0 ["done_hook"]) m1).trans ?_
  rw [show Form._reset 20 (Form.mk "" [(Field.object "test" (Form.mk ".test" [(Field.simple "test1" Conv.str none false false "done" false none), (Field.simple "test2" Conv.str none false false "done" false none)] 1 false (-1)) true false (some "done_hook"))] 1 false (-1)) = (Form.mk "" [(Field.object "test" (Form.mk ".test" [(Field.simple "test1" Conv.str none false false "done" false none), (Field.simple "test2" Conv.str none false false "done" false none)] (-1) false (-1)) true false (some "done_hook"))] (-1) false (-1)) from rfl]

theorem c9_run_nonnull :
    Form.fill 20 (c9Form true false) (mkW ["yes", "answer1", "answer2"]) =
      .ok ((Value.obj [("test", (Value.obj [("test1", (Value.str "answer1")), ("test2", (Value.str "answer2"))]))]),
        (Form.mk "" [(Field.object "test" (Form.mk ".test" [(Field.simple "test1" Conv.str none false false "done" false none), (Field.simple "test2" Conv.str none false false "done" false none)] (-1) false (-1)) true false (some "done_hook"))] (-1) false (-1)),
        (World.mk [] ["test is nullable. Enter value for it? (Y/N) ", "-------------", "test.test1: ", "-------------", "test.test2: "] 0 ["done_hook"])) := by
  have m0 : Form._has_more_prompts 20 (c9Form true false) = true := rfl
  have s0 : Form._ask 20 (c9Form true false) [] (mkW ["yes", "answer1", "answer2"]) =
      .ok ((["test", "test1"], (Value.str "answer1")), (Form.mk "" [(Field.object "test" (Form.mk ".test" [(Field.simple "test1" Conv.str none false false "done" false none), (Field.simple "test2" Conv.str none false false "done" false none)] 0 false (-1)) true false (some "done_hook"))] 0 false (-1)), (World.mk ["answer2"] ["test is nullable. Enter value for it? (Y/N) ", "-------------", "test.test1: "] 0 [])) := rfl
  have m1 : Form._has_more_prompts 20 (Form.mk "" [(Field.object "test" (Form.mk ".test" [(Field.simple "test1" Conv.str none false false "done" false none), (Field.simple "test2" Conv.str none false false "done" false none)] 0 false (-1)) true false (some "done_hook"))] 0 false (-1)) = true := rfl
  have s1 : Form._ask 20 (Form.mk "" [(Field.object "test" (Form.mk ".test" [(Field.simple "test1" Conv.str none false false "done" false none), (Field.simple "test2" Conv.str none false false "done" false none)] 0 false (-1)) true false (some "done_hook"))] 0 false (-1)) [] (World.mk ["answer2"] ["test is nullable. Enter value for it? (Y/N) ", "-------------", "test.test1: "] 0 []) =
      .ok ((["test", "test2"], (Value.str "answer2")), (Form.mk "" [(Field.object "test" (Form.mk ".test" [(Field.simple "test1" Conv.str none false false "done" false none), (Field.simple "test2" Conv.str none false false "done" false none)] 1 false (-1)) true false (some "done_hook"))] 0 false (-1)), (World.mk [] ["test is nullable. Enter value for it? (Y/N) ", "-------------", "test.test1: ", "-------------", "test.test2: "] 0 ["done_hook"])) := rfl
  have m2 : Form._has_more_prompts 20 (Form.mk "" [(Field.object "test" (Form.mk ".test" [(Field.simple "test1" Conv.str none false false "done" false none), (Field.simple "test2" Conv.str none false false "done" false none)] 1 false (-1)) true false (some "done_hook"))] 0 false (-1)) = false := rfl
  refine (fill_eq_fillLoop 20 (c9Form true false) (mkW ["yes", "answer1", "answer2"]) (by decide)).trans ?_
  refine (fillLoop_cont 20 19 (c9Form true false) (Value.obj []) (mkW ["yes", "answer1", "answer2"]) ["test", "test1"] (Value.str "answer1") (Form.mk "" [(Field.object "test" (Form.mk ".test" [(Field.simple "test1" Conv.str none false false "done" false none), (Field.simple "test2" Conv.str none false false "done" false none)] 0 false (-1)) true false (some "done_hook"))] 0 false (-1)) (World.mk ["answer2"] ["test is nullable. Enter value for it? (Y/N) ", "-------------", "test.test1: "] 0 []) m0 s0).trans ?_
  rw [show foldInto (Value.obj []) ["test", "test1"] (Value.str "answer1") = (Value.obj [("test", (Value.obj [("test1", (Value.str "answer1"))]))]) from rfl]
  refine (fillLoop_cont 20 18 (Form.mk "" [(Field.object "test" (Form.mk ".test" [(Field.simple "test1" Conv.str none false false "done" false none), (Field.simple "test2" Conv.str none false false "done" false none)] 0 false (-1)) true false (some "done_hook"))] 0 false (-1)) (Value.obj [("test", (Value.obj [("test1", (Value.str "answer1"))]))]) (World.mk ["answer2"] ["test is nullable. Enter value for it? (Y/N) ", "-------------", "test.test1: "] 0 []) ["test", "test2"] (Value.str "answer2") (Form.mk "" [(Field.object "test" (Form.mk ".test" [(Field.simple "test1" Conv.str none false false "done" false none), (Field.simple "test2" Conv.str none false false "done" false none)] 1 false (-1)) true false (some "done_hook"))] 0 false (-1)) (World.mk [] ["test is nullable. Enter value for it? (Y/N) ", "-------------", "test.test1: ", "-------------", "test.test2: "] 0 ["done_hook"]) m1 s1).trans ?_
  rw [show foldInto (Value.obj [("test", (Value.obj [("test1", (Value.str "answer1"))]))]) ["test", "test2"] (Value.str "answer2") = (Value.obj [("test", (Value.obj [("test1", (Value.str "answer1")), ("test2", (Value.str "answer2"))]))]) from rfl]
  refine (fillLoop_exit 20 17 (Form.mk "" [(Field.object "test" (Form.mk ".test" [(Field.simple "test1" Conv.str none false false "done" false none), (Field.simple "test2" Conv.str none false false "done" false none)] 1 false (-1)) true false (some "done_hook"))] 0 false (-1)) (Value.obj [("test", (Value.obj [("test1", (Value.str "answer1")), ("test2", (Value.str "answer2"))]))]) (World.mk [] ["test is nullable. Enter value for it? (Y/N) ", "-------------", "test.test1: ", "-------------", "test.test2: "] 0 ["done_hook"]) m2).trans ?_
  rw [show Form._reset 20 (Form.mk "" [(Field.object "test" (Form.mk ".test" [(Field.simple "test1" Conv.str none false false "done" false none), (Field.simple "test2" Conv.str none false false "done" false none)] 1 false (-1)) true false (some "done_hook"))] 0 false (-1)) = (Form.mk "" [(Field.object "test" (Form.mk ".test" [(Field.simple "test1" Conv.str none false false "done" false none), (Field.simple "test2" Conv.str none false false "done" false none)] (-1) false (-1)) true false (some "done_hook"))] (-1) false (-1)) from rfl]

theorem c9_run_mvnull :
    Form.fill 20 (c9Form true true) (mkW ["yes", "yes", "answer1", "answer2", "yes", "no", "no"]) =
      .ok ((Value.obj [("test", (Value.arr [(Value.obj [("test1", (Value.str "answer1")), ("test2", (Value.str "answer2"))]), Value.null]))]),
        (Form.mk "" [(Field.object "test" (Form.mk ".test" [(Field.simple "test1" Conv.str none false false "done" false none), (Field.simple "test2" Conv.str none false false "done" false none)] (-1) false (-1)) true true (some "done_hook"))] (-1) false (-1)),
        (World.mk ["no"] ["test is a list of values. Enter another one? (Y/N) ", "test[0] is nullable. Enter value for it? (Y/N) ", "-------------", "test[0].test1: ", "-------------", "test[0].test2: ", "test is a list of values. Enter another one? (Y/N) ", "test[1] is nullable. Enter value for it? (Y/N) "] 0 ["done_hook", "done_hook"])) := by
  have m0 : Form._has_more_prompts 20 (c9Form true true) = true := rfl
  have s0 : Form._ask 20 (c9Form true true) [] (mkW ["yes", "yes", "answer1", "answer2", "yes", "no", "no"]) =
      .ok ((["test", "[0]", "test1"], (Value.str "answer1")), (Form.mk "" [(Field.object "test" (Form.mk ".test" [(Field.simple "test1" Conv.str none false false "done" false none), (Field.simple "test2" Conv.str none false false "done" false none)] 0 false (-1)) true true (some "done_hook"))] 0 true 0), (World.mk ["answer2", "yes", "no", "no"] ["test is a list of values. Enter another one? (Y/N) ", "test[0] is nullable. Enter value for it? (Y/N) ", "-------------", "test[0].test1: "] 0 [])) := rfl
  have m1 : Form._has_more_prompts 20 (Form.mk "" [(Field.object "test" (Form.mk ".test" [(Field.simple "test1" Conv.str none false false "done" false none), (Field.simple "test2" Conv.str none false false "done" false none)] 0 false (-1)) true true (some "done_hook"))] 0 true 0) = true := rfl
  have s1 : Form._ask 20 (Form.mk "" [(Field.object "test" (Form.mk ".test" [(Field.simple "test1" Conv.str none false false "done" false none), (Field.simple "test2" Conv.str none false false "done" false none)] 0 false (-1)) true true (some "done_hook"))] 0 true 0) [] (World.mk ["answer2", "yes", "no", "no"] ["test is a list of values. Enter another one? (Y/N) ", "test[0] is nullable. Enter value for it? (Y/N) ", "-------------", "test[0].test1: "] 0 []) =
      .ok ((["test", "[0]", "test2"], (Value.str "answer2")), (Form.mk "" [(Field.object "test" (Form.mk ".test" [(Field.simple "test1" Conv.str none false false "done" false none), (Field.simple "test2" Conv.str none false false "done" false none)] (-1) false (-1)) true true (some "done_hook"))] 0 true 0), (World.mk ["yes", "no", "no"] ["test is a list of values. Enter another one? (Y/N) ", "test[0] is nullable. Enter value for it? (Y/N) ", "-------------", "test[0].test1: ", "-------------", "test[0].test2: "] 0 ["done_hook"])) := rfl
  have m2 : Form._has_more_prompts 20 (Form.mk "" [(Field.object "test" (Form.mk ".test" [(Field.simple "test1" Conv.str none false false "done" false none), (Field.simple "test2" Conv.str none false false "done" false none)] (-1) false (-1)) true true (some "done_hook"))] 0 true 0) = true := rfl
  have s2 : Form._ask 20 (Form.mk "" [(Field.object "test" (Form.mk ".test" [(Field.simple "test1" Conv.str none false false "done" false none), (Field.simple "test2" Conv.str none false false "done" false none)] (-1) false (-1)) true true (some "done_hook"))] 0 true 0) [] (World.mk ["yes", "no", "no"] ["test is a list of values. Enter another one? (Y/N) ", "test[0] is nullable. Enter value for it? (Y/N) ", "-------------", "test[0].test1: ", "-------------", "test[0].test2: "] 0 ["done_hook"]) =
      .ok ((["test", "[1]"], Value.null), (Form.mk "" [(Field.object "test" (Form.mk ".test" [(Field.simple "test1" Conv.str none false false "done" false none), (Field.simple "test2" Conv.str none false false "done" false none)] (-1) false (-1)) true true (some "done_hook"))] 1 true 1), (World.mk ["no"] ["test is a list of values. Enter another one? (Y/N) ", "test[0] is nullable. Enter value for it? (Y/N) ", "-------------", "test[0].test1: ", "-------------", "test[0].test2: ", "test is a list of values. Enter another one? (Y/N) ", "test[1] is nullable. Enter value for it? (Y/N) "] 0 ["done_hook", "done_hook"])) := rfl
  have m3 : Form._has_more_prompts 20 (Form.mk "" [(Field.object "test" (Form.mk ".test" [(Field.simple "test1" Conv.str none false false "done" false none), (Field.simple "test2" Conv.str none false false "done" false none)] (-1) false (-1)) true true (some "done_hook"))] 1 true 1) = false := rfl
  refine (fill_eq_fillLoop 20 (c9Form true true) (mkW ["yes", "yes", "answer1", "answer2", "yes", "no", "no"]) (by decide)).trans ?_
  refine (fillLoop_cont 20 19 (c9Form true true) (Value.obj []) (mkW ["yes", "yes", "answer1", "answer2", "yes", "no", "no"]) ["test", "[0]", "test1"] (Value.str "answer1") (Form.mk "" [(Field.object "test" (Form.mk ".test" [(Field.simple "test1" Conv.str none false false "done" false none), (Field.simple "test2" Conv.str none false false "done" false none)] 0 false (-1)) true true (some "done_hook"))] 0 true 0) (World.mk ["answer2", "yes", "no", "no"] ["test is a list of values. Enter another one? (Y/N) ", "test[0] is nullable. Enter value for it? (Y/N) ", "-------------", "test[0].test1: "] 0 []) m0 s0).trans ?_
  rw [show foldInto (Value.obj []) ["test", "[0]", "test1"] (Value.str "answer1") = (Value.obj [("test", (Value.arr [(Value.obj [("test1", (Value.str "answer1"))])]))]) from rfl]
  refine (fillLoop_cont 20 18 (Form.mk "" [(Field.object "test" (Form.mk ".test" [(Field.simple "test1" Conv.str none false false "done" false none), (Field.simple "test2" Conv.str none false false "done" false none)] 0 false (-1)) true true (some "done_hook"))] 0 true 0) (Value.obj [("test", (Value.arr [(Value.obj [("test1", (Value.str "answer1"))])]))]) (World.mk ["answer2", "yes", "no", "no"] ["test is a list of values. Enter another one? (Y/N) ", "test[0] is nullable. Enter value for it? (Y/N) ", "-------------", "test[0].test1: "] 0 []) ["test", "[0]", "test2"] (Value.str "answer2") (Form.mk "" [(Field.object "test" (Form.mk ".test" [(Field.simple "test1" Conv.str none false false "done" false none), (Field.simple "test2" Conv.str none false false "done" false none)] (-1) false (-1)) true true (some "done_hook"))] 0 true 0) (World.mk ["yes", "no", "no"] ["test is a list of values. Enter another one? (Y/N) ", "test[0] is nullable. Enter value for it? (Y/N) ", "-------------", "test[0].test1: ", "-------------", "test[0].test2: "] 0 ["done_hook"]) m1 s1).trans ?_
  rw [show foldInto (Value.obj [("test", (Value.arr [(Value.obj [("test1", (Value.str "answer1"))])]))]) ["test", "[0]", "test2"] (Value.str "answer2") = (Value.obj [("test", (Value.arr [(Value.obj [("test1", (Value.str "answer1")), ("test2", (Value.str "answer2"))])]))]) from rfl]
  refine (fillLoop_cont 20 17 (Form.mk "" [(Field.object "test" (Form.mk ".test" [(Field.simple "test1" Conv.str none false false "done" false none), (Field.simple "test2" Conv.str none false false "done" false none)] (-1) false (-1)) true true (some "done_hook"))] 0 true 0) (Value.obj [("test", (Value.arr [(Value.obj [("test1", (Value.str "answer1")), ("test2", (Value.str "answer2"))])]))]) (World.mk ["yes", "no", "no"] ["test is a list of values. Enter another one? (Y/N) ", "test[0] is nullable. Enter value for it? (Y/N) ", "-------------", "test[0].test1: ", "-------------", "test[0].test2: "] 0 ["done_hook"]) ["test", "[1]"] Value.null (Form.mk "" [(Field.object "test" (Form.mk ".test" [(Field.simple "test1" Conv.str none false false "done" false none), (Field.simple "test2" Conv.str none false false "done" false none)] (-1) false (-1)) true true (some "done_hook"))] 1 true 1) (World.mk ["no"] ["test is a list of values. Enter another one? (Y/N) ", "test[0] is nullable. Enter value for it? (Y/N) ", "-------------", "test[0].test1: ", "-------------", "test[0].test2: ", "test is a list of values. Enter another one? (Y/N) ", "test[1] is nullable. Enter value for it? (Y/N) "] 0 ["done_hook", "done_hook"]) m2 s2).trans ?_
  rw [show foldInto (Value.obj [("test", (Value.arr [(Value.obj [("test1", (Value.str "answer1")), ("test2", (Value.str "answer2"))])]))]) ["test", "[1]"] Value.null = (Value.obj [("test", (Value.arr [(Value.obj [("test1", (Value.str "answer1")), ("test2", (Value.str "answer2"))]), Value.null]))]) from rfl]
  refine (fillLoop_exit 20 16 (Form.mk "" [(Field.object "test" (Form.mk ".test" [(Field.simple "test1" Conv.str none false false "done" false none), (Field.simple "test2" Conv.str none false false "done" false none)] (-1) false (-1)) true true (some "done_hook"))] 1 true 1) (Value.obj [("test", (Value.arr [(Value.obj [("test1", (Value.str "answer1")), ("test2", (Value.str "answer2"))]), Value.null]))]) (World.mk ["no"] ["test is a list of values. Enter another one? (Y/N) ", "test[0] is nullable. Enter value for it? (Y/N) ", "-------------", "test[0].test1: ", "-------------", "test[0].test2: ", "test is a list of values. Enter another one? (Y/N) ", "test[1] is nullable. Enter value for it? (Y/N) "] 0 ["done_hook", "done_hook"]) m3).trans ?_
  rw [show Form._reset 20 (Form.mk "" [(Field.object "test" (Form.mk ".test" [(Field.simple "test1" Conv.str none false false "done" false none), (Field.simple "test2" Conv.str none false false "done" false none)] (-1) false (-1)) true true (some "done_hook"))] 1 true 1) = (Form.mk "" [(Field.object "test" (Form.mk ".test" [(Field.simple "test1" Conv.str none false false "done" false none), (Field.simple "test2" Conv.str none false false "done" false none)] (-1) false (-1)) true true (some "done_hook"))] (-1) false (-1)) from rfl]

theorem c10_run_nullable :
    Form.fill 20 c10aForm (mkW ["no", "X"]) =
      .ok ((Value.obj [("grp", Value.null)]),
        (Form.mk "" [(Field.object "grp" (Form.mk ".grp" [(Field.simple "inner" Conv.str none false false "done" false none)] (-1) false (-1)) true false none), (Field.simple "after" Conv.str none false false "done" false none)] (-1) false (-1)),
        (World.mk ["X"] ["grp is nullable. Enter value for it? (Y/N) "] 0 [])) := by
  have m0 : Form._has_more_prompts 20 c10aForm = true := rfl
  have s0 : Form._ask 20 c10aForm [] (mkW ["no", "X"]) =
      .ok ((["grp"], Value.null), (Form.mk "" [(Field.object "grp" (Form.mk ".grp" [(Field.simple "inner" Conv.str none false false "done" false none)] 0 false (-1)) true false none), (Field.simple "after" Conv.str none false false "done" false none)] 1 false (-1)), (World.mk ["X"] ["grp is nullable. Enter value for it? (Y/N) "] 0 [])) := rfl
  have m1 : Form._has_more_prompts 20 (Form.mk "" [(Field.object "grp" (Form.mk ".grp" [(Field.simple "inner" Conv.str none false false "done" false none)] 0 false (-1)) true false none), (Field.simple "after" Conv.str none false false "done" false none)] 1 false (-1)) = false := rfl
  refine (fill_eq_fillLoop 20 c10aForm (mkW ["no", "X"]) (by decide)).trans ?_
  refine (fillLoop_cont 20 19 c10aForm (Value.obj []) (mkW ["no", "X"]) ["grp"] Value.null (Form.mk "" [(Field.object "grp" (Form.mk ".grp" [(Field.simple "inner" Conv.str none false false "done" false none)] 0 false (-1)) true false none), (Field.simple "after" Conv.str none false false "done" false none)] 1 false (-1)) (World.mk ["X"] ["grp is nullable. Enter value for it? (Y/N) "] 0 []) m0 s0).trans ?_
  rw [show foldInto (Value.obj []) ["grp"] Value.null = (Value.obj [("grp", Value.null)]) from rfl]
  refine (fillLoop_exit 20 18 (Form.mk "" [(Field.object "grp" (Form.mk ".grp" [(Field.simple "inner" Conv.str none false false "done" false none)] 0 false (-1)) true false none), (Field.simple "after" Conv.str none false false "done" false none)] 1 false (-1)) (Value.obj [("grp", Value.null)]) (World.mk ["X"] ["grp is nullable. Enter value for it? (Y/N) "] 0 []) m1).trans ?_
  rw [show Form._reset 20 (Form.mk "" [(Field.object "grp" (Form.mk ".grp" [(Field.simple "inner" Conv.str none false false "done" false none)] 0 false (-1)) true false none), (Field.simple "after" Conv.str none false false "done" false none)] 1 false (-1)) = (Form.mk "" [(Field.object "grp" (Form.mk ".grp" [(Field.simple "inner" Conv.str none false false "done" false none)] (-1) false (-1)) true false none), (Field.simple "after" Conv.str none false false "done" false none)] (-1) false (-1)) from rfl]

theorem c10_run_mv :
    Form.fill 20 c10bForm (mkW ["no", "X"]) =
      .ok ((Value.obj [("grp", (Value.arr []))]),
        (Form.mk "" [(Field.object "grp" (Form.mk ".grp" [(Field.simple "inner" Conv.str none false false "done" false none)] (-1) false (-1)) false true none), (Field.simple "after" Conv.str none false false "done" false none)] (-1) false (-1)),
        (World.mk ["X"] ["grp is a list of values. Enter another one? (Y/N) "] 0 [])) := by
  have m0 : Form._has_more_prompts 20 c10bForm = true := rfl
  have s0 : Form._ask 20 c10bForm [] (mkW ["no", "X"]) =
      .ok ((["grp", "[None]"], Value.null), (Form.mk "" [(Field.object "grp" (Form.mk ".grp" [(Field.simple "inner" Conv.str none false false "done" false none)] (-1) false (-1)) false true none), (Field.simple "after" Conv.str none false false "done" false none)] 1 false 0), (World.mk ["X"] ["grp is a list of values. Enter another one? (Y/N) "] 0 [])) := rfl
  have m1 : Form._has_more_prompts 20 (Form.mk "" [(Field.object "grp" (Form.mk ".grp" [(Field.simple "inner" Conv.str none false false "done" false none)] (-1) false (-1)) false true none), (Field.simple "after" Conv.str none false false "done" false none)] 1 false 0) = false := rfl
  refine (fill_eq_fillLoop 20 c10bForm (mkW ["no", "X"]) (by decide)).trans ?_
  refine (fillLoop_cont 20 19 c10bForm (Value.obj []) (mkW ["no", "X"]) ["grp", "[None]"] Value.null (Form.mk "" [(Field.object "grp" (Form.mk ".grp" [(Field.simple "inner" Conv.str none false false "done" false none)] (-1) false (-1)) false true none), (Field.simple "after" Conv.str none false false "done" false none)] 1 false 0) (World.mk ["X"] ["grp is a list of values. Enter another one? (Y/N) "] 0 []) m0 s0).trans ?_
  rw [show foldInto (Value.obj []) ["grp", "[None]"] Value.null = (Value.obj [("grp", (Value.arr []))]) from rfl]
  refine (fillLoop_exit 20 18 (Form.mk "" [(Field.object "grp" (Form.mk ".grp" [(Field.simple "inner" Conv.str none false false "done" false none)] (-1) false (-1)) false true none), (Field.simple "after" Conv.str none false false "done" false none)] 1 false 0) (Value.obj [("grp", (Value.arr []))]) (World.mk ["X"] ["grp is a list of values. Enter another one? (Y/N) "] 0 []) m1).trans ?_
  rw [show Form._reset 20 (Form.mk "" [(Field.object "grp" (Form.mk ".grp" [(Field.simple "inner" Conv.str none false false "done" false none)] (-1) false (-1)) false true none), (Field.simple "after" Conv.str none false false "done" false none)] 1 false 0) = (Form.mk "" [(Field.object "grp" (Form.mk ".grp" [(Field.simple "inner" Conv.str none false false "done" false none)] (-1) false (-1)) false true none), (Field.simple "after" Conv.str none false false "done" false none)] (-1) false (-1)) from rfl]

theorem c10_run_auto :
    Form.fill 20 c10cForm (mkW ["no"]) =
      .ok ((Value.obj [("grp", Value.null)]),
        (Form.mk "" [(Field.object "grp" (Form.mk ".grp" [(Field.simple "inner" Conv.str none false false "done" false none)] (-1) false (-1)) true false none), (Field.autouuid "after" none)] (-1) false (-1)),
        (World.mk [] ["grp is nullable. Enter value for it? (Y/N) "] 0 [])) := by
  have m0 : Form._has_more_prompts 20 c10cForm = true := rfl
  have s0 : Form._ask 20 c10cForm [] (mkW ["no"]) =
      .ok ((["grp"], Value.null), (Form.mk "" [(Field.object "grp" (Form.mk ".grp" [(Field.simple "inner" Conv.str none false false "done" false none)] 0 false (-1)) true false none), (Field.autouuid "after" none)] 1 false (-1)), (World.mk [] ["grp is nullable. Enter value for it? (Y/N) "] 0 [])) := rfl
  have m1 : Form._has_more_prompts 20 (Form.mk "" [(Field.object "grp" (Form.mk ".grp" [(Field.simple "inner" Conv.str none false false "done" false none)] 0 false (-1)) true false none), (Field.autouuid "after" none)] 1 false (-1)) = false := rfl
  refine (fill_eq_fillLoop 20 c10cForm (mkW ["no"]) (by decide)).trans ?_
  refine (fillLoop_cont 20 19 c10cForm (Value.obj []) (mkW ["no"]) ["grp"] Value.null (Form.mk "" [(Field.object "grp" (Form.mk ".grp" [(Field.simple "inner" Conv.str none false false "done" false none)] 0 false (-1)) true false none), (Field.autouuid "after" none)] 1 false (-1)) (World.mk [] ["grp is nullable. Enter value for it? (Y/N) "] 0 []) m0 s0).trans ?_
  rw [show foldInto (Value.obj []) ["grp"] Value.null = (Value.obj [("grp", Value.null)]) from rfl]
  refine (fillLoop_exit 20 18 (Form.mk "" [(Field.object "grp" (Form.mk ".grp" [(Field.simple "inner" Conv.str none false false "done" false none)] 0 false (-1)) true false none), (Field.autouuid "after" none)] 1 false (-1)) (Value.obj [("grp", Value.null)]) (World.mk [] ["grp is nullable. Enter value for it? (Y/N) "] 0 []) m1).trans ?_
  rw [show Form._reset 20 (Form.mk "" [(Field.object "grp" (Form.mk ".grp" [(Field.simple "inner" Conv.str none false false "done" false none)] 0 false (-1)) true false none), (Field.autouuid "after" none)] 1 false (-1)) = (Form.mk "" [(Field.object "grp" (Form.mk ".grp" [(Field.simple "inner" Conv.str none false false "done" false none)] (-1) false (-1)) true false none), (Field.autouuid "after" none)] (-1) false (-1)) from rfl]

/-!
## The claims
-/

/-- C1: for the polymorphic field with tags person/animal (person
variant: name, int-converted age; animal variant: name, cry), the fill
answered "person","Alice","30" produces the sub-record
type/name/age = person/Alice/30 and the fill answered
"animal","Rex","Woof" produces type/name/cry = animal/Rex/Woof; the
prompt traces show exactly one type-selector question followed only by
the selected variant's remaining questions (the selector is never asked
again), and after the type answer the field's delegated subform alias
is exactly the variant matching the answered tag. -/
theorem c1_polymorphic_dispatch :
    recOf (Form.fill 20 c1Form (mkW ["person", "Alice", "30"])) =
      some (.obj [("thing", .obj [("type", .str "person"), ("name", .str "Alice"), ("age", .int 30)])]) ∧
    outOf (Form.fill 20 c1Form (mkW ["person", "Alice", "30"])) =
      some ["-------------", "thing.type: ", "-------------", "thing.name: ", "-------------", "thing.age: "] ∧
    recOf (Form.fill 20 c1Form (mkW ["animal", "Rex", "Woof"])) =
      some (.obj [("thing", .obj [("type", .str "animal"), ("name", .str "Rex"), ("cry", .str "Woof")])]) ∧
    outOf (Form.fill 20 c1Form (mkW ["animal", "Rex", "Woof"])) =
      some ["-------------", "thing.type: ", "-------------", "thing.name: ", "-------------", "thing.cry: "] ∧
    (askFormOf (Form._ask 20 c1Form [] (mkW ["person", "Alice", "30"]))).bind firstFieldActive = some "person" ∧
    (askFormOf (Form._ask 20 c1Form [] (mkW ["animal", "Rex", "Woof"]))).bind firstFieldActive = some "animal" := by
  refine ⟨?_, ?_, ?_, ?_, ?_, ?_⟩
  · rw [c1_run_person]; rfl
  · rw [c1_run_person]; rfl
  · rw [c1_run_animal]; rfl
  · rw [c1_run_animal]; rfl
  · rfl
  · rfl

/-- C4: for the repeatable scalar field with sentinel "done", answering
"done" first yields the empty array (zero entries) for the field;
answering "a","b","done" yields the array ["a","b"]; and with a default
present, a blank answer accepts the default as a list entry instead of
being treated as the sentinel (the following "done" then closes the
repetition, leaving exactly ["d"]). -/
theorem c4_sentinel_repetition :
    recOf (Form.fill 20 c4Form (mkW ["done"])) = some (.obj [("test", .arr [])]) ∧
    recOf (Form.fill 20 c4Form (mkW ["a", "b", "done"])) =
      some (.obj [("test", .arr [.str "a", .str "b"])]) ∧
    recOf (Form.fill 20 c4dForm (mkW ["", "done"])) = some (.obj [("test", .arr [.str "d"])]) := by
  refine ⟨?_, ?_, ?_⟩
  · rw [c4_run_done]; rfl
  · rw [c4_run_ab]; rfl
  · rw [c4_run_default]; rfl

/-- C9 (spec-modelled done hook): the done hook of an object field is
invoked exactly once per completed repetition of a repeatable object
field (two completed groups, then a closing "no", give two
invocations), exactly once for a non-repeatable object field, exactly
once when a nullable object field is answered null, and exactly twice
for a repeatable nullable field whose second repetition is answered
null. -/
theorem c9_done_hook :
    hooksOf (Form.fill 20 (c9Form false false) (mkW ["answer1", "answer2"])) =
      some ["done_hook"] ∧
    hooksOf (Form.fill 20 (c9Form false true)
        (mkW ["yes", "answer1", "answer2", "yes", "answer3", "answer4", "no"])) =
      some ["done_hook", "done_hook"] ∧
    hooksOf (Form.fill 20 (c9Form true false) (mkW ["no"])) = some ["done_hook"] ∧
    hooksOf (Form.fill 20 (c9Form true false) (mkW ["yes", "answer1", "answer2"])) =
      some ["done_hook"] ∧
    hooksOf (Form.fill 20 (c9Form true true)
        (mkW ["yes", "yes", "answer1", "answer2", "yes", "no", "no"])) =
      some ["done_hook", "done_hook"] := by
  refine ⟨?_, ?_, ?_, ?_, ?_⟩
  · rw [c9_run_plain]; rfl
  · rw [c9_run_mv]; rfl
  · rw [c9_run_null]; rfl
  · rw [c9_run_nonnull]; rfl
  · rw [c9_run_mvnull]; rfl

/-- C10: answering "no" to a nullable object field's "enter value?"
confirmation, or to a repeatable object field's "enter another one?"
confirmation, leaves the engine's cursor one *past* that field (the
cursor had been set to the field's index 0 and is incremented again to
1 before the null/closing marker is returned), so the scalar or auto-id
field that follows is skipped: the fill ends after the single
confirmation question, the record contains no entry for the following
field, and its scripted answer is left unconsumed. -/
theorem c10_confirm_no_skips_next_field :
    (askFormOf (Form._ask 20 c10aForm [] (mkW ["no"]))).map Form.cursor = some 1 ∧
    (askFormOf (Form._ask 20 c10bForm [] (mkW ["no"]))).map Form.cursor = some 1 ∧
    recOf (Form.fill 20 c10aForm (mkW ["no", "X"])) = some (.obj [("grp", .null)]) ∧
    outOf (Form.fill 20 c10aForm (mkW ["no", "X"])) =
      some ["grp is nullable. Enter value for it? (Y/N) "] ∧
    recOf (Form.fill 20 c10bForm (mkW ["no", "X"])) = some (.obj [("grp", .arr [])]) ∧
    outOf (Form.fill 20 c10bForm (mkW ["no", "X"])) =
      some ["grp is a list of values. Enter another one? (Y/N) "] ∧
    recOf (Form.fill 20 c10cForm (mkW ["no"])) = some (.obj [("grp", .null)]) ∧
    outOf (Form.fill 20 c10cForm (mkW ["no"])) =
      some ["grp is nullable. Enter value for it? (Y/N) "] := by
  refine ⟨rfl, rfl, ?_, ?_, ?_, ?_, ?_, ?_⟩
  · rw [c10_run_nullable]; rfl
  · rw [c10_run_nullable]; rfl
  · rw [c10_run_mv]; rfl
  · rw [c10_run_mv]; rfl
  · rw [c10_run_auto]; rfl
  · rw [c10_run_auto]; rfl

/-- C2 counterexample: the claim says an explicit non-blank answer
leaves a Sequence default provider's index unchanged; but `_ask`
computes the default eagerly (calling the provider) before prompting,
so after answering the explicit text "x" — which is accepted as the
value, no default used — the provider's rotating index has advanced
from 0 to 1. -/
theorem c2_sequence_refuted :
    recOf (Form.fill 20 c2Form (mkW ["x"])) = some (.obj [("test", .str "x")]) ∧
    firstFieldProviderCursor c2Form = some 0 ∧
    (formOf (Form.fill 20 c2Form (mkW ["x"]))).bind firstFieldProviderCursor = some 1 := by
  refine ⟨?_, rfl, ?_⟩
  · rw [c2_run_explicit]; rfl
  · rw [c2_run_explicit]; rfl

/-- C6 counterexample: the claim says `hasMore()` is false on the root
cursor after any completed `fill`; but `fill`'s final step resets the
cursor tree to before-start, so on this one-field schema
`_has_more_prompts` is true again on the returned state. -/
theorem c6_hasmore_after_fill_refuted :
    (formOf (Form.fill 20 c6Form (mkW ["x"]))).map (Form._has_more_prompts 20) =
      some true := by
  rw [c6_run_first]; rfl

/-- C7 counterexample: a zero-field schema starts (and stays) with
cursor at before-start (-1), so the claim's condition ("position is
NotStarted") holds, yet `_has_more_prompts` returns false (the source
returns false for an empty form before any other check). -/
theorem c7_hasmore_empty_refuted :
    Form._has_more_prompts 5 (Form.new "empty") = false ∧
    (Form.new "empty").cursor = -1 ∧
    hasMoreSpecClaim 4 (Form.new "empty") = true := by
  exact ⟨rfl, rfl, rfl⟩

/-- C8 counterexample: the name "a b" does not match the identifier
grammar (its second character is a space), yet `add_field` accepts it
and adds the field — the source checks the grammar with `re.match`,
which anchors only at the start of the string. -/
theorem c8_identifier_refuted :
    identGrammarFull "a b" = false ∧
    (Form.new "").add_field "a b" .str none false false "done" false none =
      .ok (Form.mk "" [.simple "a b" .str none false false "done" false none] (-1) false (-1)) := by
  exact ⟨rfl, rfl⟩

/-- One simple string field whose default is the given
`SequenceProvider` (exactly what `add_field` builds for it). -/
def seqForm (sp : SequenceProvider) : Form :=
  Form.mk "" [.simple "test" .str (some (.seqProvider sp)) false false "done" false none] (-1) false (-1)

/-- `seqForm` after its single field has been asked: the cursor is on
the field and the provider has advanced by exactly one call. -/
def seqFormAsked (sp : SequenceProvider) : Form :=
  Form.mk "" [.simple "test" .str (some (.seqProvider sp)) false false "done" false none] 0 false (-1)

/-- The boolean-converter variant of `seqForm`. -/
def seqBoolForm (sp : SequenceProvider) : Form :=
  Form.mk "" [.simple "test" .bool (some (.seqProvider sp)) false false "done" false none] (-1) false (-1)

def seqBoolFormAsked (sp : SequenceProvider) : Form :=
  Form.mk "" [.simple "test" .bool (some (.seqProvider sp)) false false "done" false none] 0 false (-1)

/-- C2 (amended): for a scalar field whose default is a Sequence
provider, every ask of the field advances the provider exactly once —
`_ask` computes the default eagerly, before prompting — regardless of
whether the answer is blank (accepting the default) or explicit text;
conversion-failure retries within one ask do not advance it further
(the boolean field asked with "maybe" then "yes" ends with the provider
advanced exactly once).  `seqForm`/`seqBoolForm` are exactly the forms
`add_field` builds for such a field. -/
theorem c2_sequence_advance_per_ask : ∀ (sp : SequenceProvider) (s : String) (n : Nat),
    (Form.new "").add_field "test" .str (some (.seqProvider sp)) false false "done" false none =
      .ok (seqForm sp) ∧
    (Form.new "").add_field "test" .bool (some (.seqProvider sp)) false false "done" false none =
      .ok (seqBoolForm sp) ∧
    (∃ v out, Form._ask (n + 1) (seqForm sp) [] (mkW [s]) =
      .ok ((["test"], v), seqFormAsked (SequenceProvider.call sp).2, World.mk [] out 0 [])) ∧
    (∃ out, Form._ask (n + 1) (seqBoolForm sp) [] (mkW ["maybe", "yes"]) =
      .ok ((["test"], .bool true), seqBoolFormAsked (SequenceProvider.call sp).2,
           World.mk [] out 0 [])) := by
  intro sp s n
  refine ⟨rfl, rfl, ?_, ?_⟩
  · rcases hc : sp.call with ⟨r, sp2⟩
    by_cases hs : s = ""
    · subst hs
      rcases r with _ | v0
      · refine ⟨.str "", ["-------------", buildPrompt (joinDot ["test"]) (sp.call).1 false false "done"], ?_⟩
        have hloop : askSimpleLoop .str false false false "done" (sp.call).1 (-1) (joinDot ["test"]) [""] [] =
            .ok (.gotValue (.str ""), [], [buildPrompt (joinDot ["test"]) (sp.call).1 false false "done"]) := by
          rw [askSimpleLoop, hc]
          rw [if_neg (by simp)]
          rw [if_neg (fun h => by exact absurd h.1 (by decide))]
          rfl
        simp only [seqForm, seqFormAsked, mkW]
        rw [Form._ask]
        norm_num [pyGet, Field.multivalue, Field.isObjectType, Field.name]
        rw [hloop, hc]
        rfl
      · refine ⟨v0, ["-------------", buildPrompt (joinDot ["test"]) (sp.call).1 false false "done"], ?_⟩
        have hloop : askSimpleLoop .str false false false "done" (sp.call).1 (-1) (joinDot ["test"]) [""] [] =
            .ok (.gotValue v0, [], [buildPrompt (joinDot ["test"]) (sp.call).1 false false "done"]) := by
          rw [askSimpleLoop, hc]
          rw [if_pos ⟨rfl, Or.inr rfl⟩]
          rfl
        simp only [seqForm, seqFormAsked, mkW]
        rw [Form._ask]
        norm_num [pyGet, Field.multivalue, Field.isObjectType, Field.name]
        rw [hloop, hc]
        rfl
    · refine ⟨.str s, ["-------------", buildPrompt (joinDot ["test"]) (sp.call).1 false false "done"], ?_⟩
      have hloop : askSimpleLoop .str false false false "done" (sp.call).1 (-1) (joinDot ["test"]) [s] [] =
          .ok (.gotValue (.str s), [], [buildPrompt (joinDot ["test"]) (sp.call).1 false false "done"]) := by
        rw [askSimpleLoop]
        rw [if_neg (fun h => hs h.1)]
        rw [if_neg (fun h => by exact absurd h.1 (by decide))]
        rfl
      simp only [seqForm, seqFormAsked, mkW]
      rw [Form._ask]
      norm_num [pyGet, Field.multivalue, Field.isObjectType, Field.name]
      rw [hloop, hc]
      rfl
  · rcases hc : sp.call with ⟨r, sp2⟩
    refine ⟨["-------------", buildPrompt (joinDot ["test"]) (sp.call).1 false false "done",
             "Error: value must yes or no",
             buildPrompt (joinDot ["test"]) (sp.call).1 false false "done"], ?_⟩
    have hloop : askSimpleLoop .bool false false false "done" (sp.call).1 (-1) (joinDot ["test"]) ["maybe", "yes"] [] =
        .ok (.gotValue (.bool true), [],
             [buildPrompt (joinDot ["test"]) (sp.call).1 false false "done",
              "Error: value must yes or no",
              buildPrompt (joinDot ["test"]) (sp.call).1 false false "done"]) := by
      rw [askSimpleLoop]
      rw [if_neg (by simp)]
      rw [if_neg (fun h => by exact absurd h.1 (by decide))]
      rw [show applyConv .bool "maybe" = .error "value must yes or no" from rfl]
      simp only []
      rw [askSimpleLoop]
      rw [if_neg (by simp)]
      rw [if_neg (fun h => by exact absurd h.1 (by decide))]
      rw [show applyConv .bool "yes" = .ok (.bool true) from rfl]
      rfl
    simp only [seqBoolForm, seqBoolFormAsked, mkW]
    rw [Form._ask]
    norm_num [pyGet, Field.multivalue, Field.isObjectType, Field.name]
    rw [hloop, hc]
    rfl

/-- C3: an answer that fails the field converter is recovered locally:
in the answer loop, a failing input is consumed, the error is printed,
and the continuation is *identical* to having started on the remaining
answers (same state, the identical question prompt re-issued) — and
concretely, on the boolean field, "maybe" followed by "yes" produces
the same record and the same final cursor state (position 0, no
repetition flags) as answering "yes" directly, with the same question
printed twice around the error message, advancing exactly the one
question. -/
theorem c3_conversion_failure_local :
    (∀ (type2 : Conv) (nullable : Bool) (sentinel : String) (dv : Option Value)
       (fp s e : String) (rest outs : List String),
       applyConv type2 s = .error e →
       ¬ (s = "" ∧ (nullable ∨ dv.isSome)) →
       askSimpleLoop type2 nullable false false sentinel dv (-1) fp (s :: rest) outs =
         askSimpleLoop type2 nullable false false sentinel dv (-1) fp rest
           (outs ++ [buildPrompt fp dv nullable false sentinel, "Error: " ++ e])) ∧
    recOf (Form.fill 20 c3Form (mkW ["maybe", "yes"])) = some (.obj [("test", .bool true)]) ∧
    recOf (Form.fill 20 c3Form (mkW ["yes"])) = some (.obj [("test", .bool true)]) ∧
    formOf (Form.fill 20 c3Form (mkW ["maybe", "yes"])) = formOf (Form.fill 20 c3Form (mkW ["yes"])) ∧
    outOf (Form.fill 20 c3Form (mkW ["maybe", "yes"])) =
      some ["-------------", "test: ", "Error: value must yes or no", "test: "] ∧
    outOf (Form.fill 20 c3Form (mkW ["yes"])) = some ["-------------", "test: "] ∧
    (askFormOf (Form._ask 20 c3Form [] (mkW ["maybe", "yes"]))).map Form.cursor = some 0 ∧
    (askFormOf (Form._ask 20 c3Form [] (mkW ["maybe", "yes"]))).map Form.in_multivalue = some false ∧
    (askFormOf (Form._ask 20 c3Form [] (mkW ["maybe", "yes"]))).map Form.multivalue_index = some (-1) := by
  refine ⟨?_, ?_, ?_, ?_, ?_, ?_, rfl, rfl, rfl⟩
  · intro type2 nullable sentinel dv fp s e rest outs hconv hblank
    rw [askSimpleLoop, if_neg hblank, hconv]
    simp
  · rw [c3_run_retry]; rfl
  · rw [c3_run_direct]; rfl
  · rw [c3_run_retry, c3_run_direct]; rfl
  · rw [c3_run_retry]; rfl
  · rw [c3_run_direct]; rfl

/-- One simple field with `default_last=True` and the given converter
and initial default (exactly what `add_field` builds). -/
def dleForm (conv : Conv) (default : Option DefaultVal) : Form :=
  Form.mk "" [.simple "test" conv default false false "done" true none] (-1) false (-1)

/-- `c5Form` after the first fill: the accepted answer has become the
new fixed default, the cursor tree is back at before-start. -/
def c5FormAfter : Form :=
  Form.mk "" [.simple "test" .str (some (.val (.str "value one"))) false false "done" true none] (-1) false (-1)

/-- C5: for a field with `default_last=True`, every accepted
(converter-validated) answer becomes the field's new fixed default,
whatever the previous default was (absent, fixed, or a provider); and
concretely, after a first fill answered "value one", a second fill on
the resulting schema answered with the empty string yields "value one"
again — both fills produce equal records. -/
theorem c5_remember_last :
    (∀ (conv : Conv) (default : Option DefaultVal) (s : String) (v : Value) (n : Nat)
       (rest : List String),
       applyConv conv s = .ok v → s ≠ "" → v ≠ .null →
       ∃ out, Form._ask (n + 1) (dleForm conv default) [] (mkW (s :: rest)) =
         .ok ((["test"], v),
              Form.mk "" [.simple "test" conv (some (.val v)) false false "done" true none] 0 false (-1),
              World.mk rest out 0 [])) ∧
    (∀ (conv : Conv) (default : Option DefaultVal),
       (Form.new "").add_field "test" conv default false false "done" true none =
         .ok (dleForm conv default)) ∧
    recOf (Form.fill 20 c5Form (mkW ["value one"])) = some (.obj [("test", .str "value one")]) ∧
    formOf (Form.fill 20 c5Form (mkW ["value one"])) = some c5FormAfter ∧
    recOf (Form.fill 20 c5FormAfter (mkW [""])) = some (.obj [("test", .str "value one")]) := by
  refine ⟨?_, fun conv default => rfl, ?_, ?_, ?_⟩
  · intro conv default s v n rest hconv hs hv
    rcases default with _ | ⟨dv0⟩ | ⟨sp⟩
    · refine ⟨["-------------", buildPrompt (joinDot ["test"]) none false false "done"], ?_⟩
      have hloop : askSimpleLoop conv false false false "done" none (-1) (joinDot ["test"]) (s :: rest) [] =
          .ok (.gotValue v, rest, [buildPrompt (joinDot ["test"]) none false false "done"]) := by
        rw [askSimpleLoop]
        rw [if_neg (fun h => hs h.1)]
        rw [if_neg (fun h => by exact absurd h.1 (by decide))]
        rw [hconv]
        rfl
      simp only [dleForm, mkW]
      rw [Form._ask]
      norm_num [pyGet, Field.multivalue, Field.isObjectType, Field.name]
      rw [hloop]
      cases v with
      | null => exact absurd rfl hv
      | str s2 => rfl
      | int n2 => rfl
      | bool b2 => rfl
      | arr xs => rfl
      | obj kvs => rfl
    · refine ⟨["-------------", buildPrompt (joinDot ["test"]) (some dv0) false false "done"], ?_⟩
      have hloop : askSimpleLoop conv false false false "done" (some dv0) (-1) (joinDot ["test"]) (s :: rest) [] =
          .ok (.gotValue v, rest, [buildPrompt (joinDot ["test"]) (some dv0) false false "done"]) := by
        rw [askSimpleLoop]
        rw [if_neg (fun h => hs h.1)]
        rw [if_neg (fun h => by exact absurd h.1 (by decide))]
        rw [hconv]
        rfl
      simp only [dleForm, mkW]
      rw [Form._ask]
      norm_num [pyGet, Field.multivalue, Field.isObjectType, Field.name]
      rw [hloop]
      cases v with
      | null => exact absurd rfl hv
      | str s2 => rfl
      | int n2 => rfl
      | bool b2 => rfl
      | arr xs => rfl
      | obj kvs => rfl
    · refine ⟨["-------------", buildPrompt (joinDot ["test"]) (sp.call).1 false false "done"], ?_⟩
      have hloop : askSimpleLoop conv false false false "done" (sp.call).1 (-1) (joinDot ["test"]) (s :: rest) [] =
          .ok (.gotValue v, rest, [buildPrompt (joinDot ["test"]) (sp.call).1 false false "done"]) := by
        rw [askSimpleLoop]
        rw [if_neg (fun h => hs h.1)]
        rw [if_neg (fun h => by exact absurd h.1 (by decide))]
        rw [hconv]
        rfl
      simp only [dleForm, mkW]
      rw [Form._ask]
      norm_num [pyGet, Field.multivalue, Field.isObjectType, Field.name]
      rw [hloop]
      cases v with
      | null => exact absurd rfl hv
      | str s2 => rfl
      | int n2 => rfl
      | bool b2 => rfl
      | arr xs => rfl
      | obj kvs => rfl
  · rw [c5_run_first]; rfl
  · rw [c5_run_first]; rfl
  · rw [show c5FormAfter =
      (Form.mk "" [(Field.simple "test" Conv.str (some (DefaultVal.val (Value.str "value one"))) false false "done" true none)] (-1) false (-1)) from rfl]
    rw [c5_run_second]; rfl

/-- Any successful exit of the `fill` loop hands back a recursively
reset cursor tree: the final form is `_reset` of the state at which
`_has_more_prompts` first answered false. -/
theorem fillLoop_ok_reset (d : Nat) : ∀ (m : Nat) (form : Form) (acc rec : Value)
    (w w2 : World) (f2 : Form),
    Form.fillLoop d m form acc w = .ok (rec, f2, w2) →
    ∃ g, f2 = Form._reset d g ∧ Form._has_more_prompts d g = false := by
  intro m
  induction m with
  | zero =>
    intro form acc rec w w2 f2 h
    rw [Form.fillLoop] at h
    rcases hb : Form._has_more_prompts d form with _ | _
    · rw [hb] at h
      simp only [Bool.cond_false, Except.ok.injEq, Prod.mk.injEq] at h
      exact ⟨form, h.2.1.symm, hb⟩
    · rw [hb] at h
      simp only [Bool.cond_true] at h
      exact absurd h (by simp)
  | succ mm ih =>
    intro form acc rec w w2 f2 h
    rw [Form.fillLoop] at h
    rcases hb : Form._has_more_prompts d form with _ | _
    · rw [hb] at h
      simp only [Bool.cond_false, Except.ok.injEq, Prod.mk.injEq] at h
      exact ⟨form, h.2.1.symm, hb⟩
    · rw [hb] at h
      simp only [Bool.cond_true] at h
      rcases ha : Form._ask d form [] w with e | r
      · rw [ha] at h
        exact absurd h (by simp)
      · rcases r with ⟨⟨p, v⟩, f3, w3⟩
        rw [ha] at h
        exact ih f3 (foldInto acc p v) rec w3 w2 f2 h

/-- C6 (amended): the `fill` loop exits only once `_has_more_prompts`
is false, and the final step then resets the cursor tree recursively to
its before-start state (cursor -1, no repetition flags); therefore the
next `fill` on the same schema starts again from the first field in
declaration order — but `hasMore()` on the returned root state is
*true* again for any non-empty schema (see the counterexample), not
false as the claim stated.  Concretely: after filling the one-field
schema, the returned state equals the freshly built schema, and a
second fill asks the same first question again. -/
theorem c6_fill_reset_amended :
    (∀ (fuel : Nat) (form : Form) (w : World) (rec : Value) (f2 : Form) (w2 : World),
       Form.fill fuel form w = .ok (rec, f2, w2) → ¬ form.len < 1 →
       ∃ g, f2 = Form._reset fuel g ∧ Form._has_more_prompts fuel g = false) ∧
    (∀ (fuel : Nat) (g : Form),
       (Form._reset (fuel + 1) g).cursor = -1 ∧
       (Form._reset (fuel + 1) g).in_multivalue = false ∧
       (Form._reset (fuel + 1) g).multivalue_index = -1) ∧
    formOf (Form.fill 20 c6Form (mkW ["x"])) = some c6Form ∧
    recOf (Form.fill 20 c6Form (mkW ["y"])) = some (.obj [("test", .str "y")]) ∧
    outOf (Form.fill 20 c6Form (mkW ["y"])) = some ["-------------", "test: "] := by
  refine ⟨?_, ?_, ?_, ?_, ?_⟩
  · intro fuel form w rec f2 w2 h hlen
    rw [Form.fill, if_neg hlen] at h
    exact fillLoop_ok_reset fuel fuel form (.obj []) rec w w2 f2 h
  · intro fuel g
    rcases g with ⟨nm, fs, c, b, i⟩
    exact ⟨rfl, rfl, rfl⟩
  · rw [c6_run_first]; rfl
  · rw [show c6Form = (Form.mk "" [(Field.simple "test" Conv.str none false false "done" false none)] (-1) false (-1)) from rfl]
    rw [c6_run_second]; rfl
  · rw [show c6Form = (Form.mk "" [(Field.simple "test" Conv.str none false false "done" false none)] (-1) false (-1)) from rfl]
    rw [c6_run_second]; rfl

/-- Witness for C6: the fill evaluated in `c6_run_first` satisfies the
reset/loop-exit characterisation. -/
theorem c6_fill_reset_amended_witness :
    ∃ g, c6Form = Form._reset 20 g ∧ Form._has_more_prompts 20 g = false :=
  c6_fill_reset_amended.1 20 c6Form (mkW ["x"]) (.obj [("test", .str "x")]) c6Form
    (World.mk [] ["-------------", "test: "] 0 []) c6_run_first (by decide)

/-- C7 (amended): for a schema with at least one field,
`_has_more_prompts` returns true exactly under the claim's condition —
the cursor is before-start, or strictly before the last index, or at
the last index with an unfinished object/polymorphic field there, or at
the last index with a repetition pending.  (For a zero-field schema the
source returns false although its cursor is before-start; see the
counterexample.) -/
theorem c7_hasmore_iff_amended (n : Nat) (form : Form) (h : 1 ≤ form.len) :
    Form._has_more_prompts (n + 1) form = hasMoreSpecClaim n form := by
  rcases form with ⟨nm, fs, c, mv, mvi⟩
  have hlen : 1 ≤ fs.length := h
  rw [Form._has_more_prompts]
  simp only [hasMoreSpecClaim, Form.fieldsList, Form.cursor, Form.in_multivalue, Form.len]
  rw [if_neg (by omega : ¬ fs.length < 1)]
  by_cases h1 : c < (fs.length : Int) - 1
  · rw [if_pos h1, decide_eq_true h1]
    simp
  · by_cases h2 : c > (fs.length : Int) - 1
    · rw [if_neg h1, if_pos h2]
      rw [decide_eq_false (by omega : ¬ c = -1),
          decide_eq_false h1,
          decide_eq_false (by omega : ¬ c = (fs.length : Int) - 1)]
      simp
    · have hc : c = (fs.length : Int) - 1 := by omega
      subst hc
      rw [if_neg h1, if_neg h2]
      have hidx : ((fs.length : Int) - 1).toNat < fs.length := by omega
      have hget : pyGet fs ((fs.length : Int) - 1) = some (fs[((fs.length : Int) - 1).toNat]) := by
        rw [pyGet, if_pos (by omega : (0 : Int) ≤ (fs.length : Int) - 1)]
        exact List.getElem?_eq_getElem hidx
      rw [hget]
      rw [decide_eq_false (by omega : ¬ (fs.length : Int) - 1 = -1),
          decide_eq_false h1,
          decide_eq_true (rfl : (fs.length : Int) - 1 = (fs.length : Int) - 1)]
      cases hob : (fs[((fs.length : Int) - 1).toNat]).isObjectType <;>
        cases hmv : mv <;>
        cases hsub : Form._has_more_prompts n (fs[((fs.length : Int) - 1).toNat]).form <;>
        simp [hob, hmv, hsub]

/-- Witness for C7 on the one-field schema. -/
theorem c7_hasmore_iff_amended_witness :
    1 ≤ c6Form.len ∧ Form._has_more_prompts 4 c6Form = hasMoreSpecClaim 3 c6Form :=
  ⟨by decide, c7_hasmore_iff_amended 3 c6Form (by decide)⟩

/-- A blank tag anywhere in the remaining choice list makes the subform
construction loop of `add_polymorphic_object_field` raise. -/
theorem buildPolySubforms_blank (subName tf : String) (tcs : List String) (dt : Option String) :
    ∀ l : List String, "" ∈ l → isErr (buildPolySubforms subName tf tcs dt l) = true := by
  intro l hl
  induction l with
  | nil => cases hl
  | cons ch rest ih =>
    rw [buildPolySubforms]
    by_cases hch : ch = ""
    · rw [if_pos hch]
      rfl
    · rw [if_neg hch]
      have hrest : "" ∈ rest := by
        rcases List.mem_cons.mp hl with h | h
        · exact absurd h.symm hch
        · exact h
      rcases hacf : (Form.new subName).add_choice_field tf tcs dt false false "done" with e | g
      · rfl
      · rcases hb : buildPolySubforms subName tf tcs dt rest with e2 | gs
        · rfl
        · exact absurd (hb ▸ ih hrest) (by simp [isErr])

/-- A list with a duplicate has a strictly shorter dedup. -/
theorem dedup_length_ne {l : List String} (h : ¬ l.Nodup) : l.dedup.length ≠ l.length := by
  intro he
  exact h (by
    have hsub := List.dedup_sublist l
    have heq := hsub.eq_of_length he
    rw [← heq]
    exact List.nodup_dedup l)

/-- C8 (amended): schema-definition errors are rejected eagerly at the
add-field call, which then adds no field (the builder returns an error
and no new schema): a duplicate field name; a field name that is empty
or whose first character falls outside the grammar (in particular one
starting with a digit — but note the prefix-match counterexample: a
name with a valid first character and invalid later characters is
accepted); an empty sentinel on a repeatable field; a polymorphic field
with fewer than two tags, with duplicate tags, or with a blank tag;
and the same name checks on object and auto-id fields. -/
theorem c8_schema_rejection_amended :
    (∀ (form : Form) (name : String) (t : Conv) (d : Option DefaultVal) (nb mv : Bool)
       (sn : String) (dl : Bool) (eh : Option String),
       name ∈ form.fieldNames →
       isErr (form.add_field name t d nb mv sn dl eh) = true) ∧
    (∀ (form : Form) (name : String) (t : Conv) (d : Option DefaultVal) (nb mv : Bool)
       (sn : String) (dl : Bool) (eh : Option String),
       identMatch name = false →
       isErr (form.add_field name t d nb mv sn dl eh) = true) ∧
    (∀ (form : Form) (name : String) (t : Conv) (d : Option DefaultVal) (nb dl : Bool)
       (eh : Option String),
       isErr (form.add_field name t d nb true "" dl eh) = true) ∧
    (∀ (form : Form) (name : String) (tcs : List String) (tf : String) (dt : Option String)
       (nb mv : Bool) (dh : Option String),
       tcs.length < 2 →
       isErr (form.add_polymorphic_object_field name tcs tf dt nb mv dh) = true) ∧
    (∀ (form : Form) (name : String) (tcs : List String) (tf : String) (dt : Option String)
       (nb mv : Bool) (dh : Option String),
       ¬ tcs.Nodup →
       isErr (form.add_polymorphic_object_field name tcs tf dt nb mv dh) = true) ∧
    (∀ (form : Form) (name : String) (tcs : List String) (tf : String) (dt : Option String)
       (nb mv : Bool) (dh : Option String),
       "" ∈ tcs →
       isErr (form.add_polymorphic_object_field name tcs tf dt nb mv dh) = true) ∧
    (∀ (form : Form) (name : String) (nb mv : Bool) (dh : Option String),
       name ∈ form.fieldNames →
       isErr (form.add_object_field name nb mv dh) = true) ∧
    (∀ (form : Form) (name : String) (eh : Option String),
       identMatch name = false →
       isErr (form.add_auto_uuid_field name eh) = true) := by
  refine ⟨?_, ?_, ?_, ?_, ?_, ?_, ?_, ?_⟩
  · intro form name t d nb mv sn dl eh hdup
    rw [Form.add_field, if_pos hdup]
    rfl
  · intro form name t d nb mv sn dl eh hid
    rw [Form.add_field]
    split
    · rfl
    rw [if_pos (by simp [hid])]
    rfl
  · intro form name t d nb dl eh
    rw [Form.add_field]
    split
    · rfl
    split
    · rfl
    rw [if_pos ⟨rfl, rfl⟩]
    rfl
  · intro form name tcs tf dt nb mv dh hlen
    unfold Form.add_polymorphic_object_field
    split
    · rfl
    split
    · rfl
    split
    · rfl
    split
    · rfl
    rfl
  · intro form name tcs tf dt nb mv dh hnodup
    unfold Form.add_polymorphic_object_field
    split
    · rfl
    split
    · rfl
    split
    · rfl
    split
    · rfl
    split
    · rfl
    split
    · rfl
    rename_i hko
    exact absurd (dedup_length_ne hnodup) hko
  · intro form name tcs tf dt nb mv dh hblank
    unfold Form.add_polymorphic_object_field
    split
    · rfl
    split
    · rfl
    split
    · rfl
    split
    · rfl
    split
    · rfl
    split
    · rfl
    rcases hb : buildPolySubforms (form.nameOf ++ "." ++ name) tf tcs dt tcs with e | subs
    · rfl
    · exact absurd (hb ▸ buildPolySubforms_blank (form.nameOf ++ "." ++ name) tf tcs dt tcs hblank)
        (by simp [isErr])
  · intro form name nb mv dh hdup
    rw [Form.add_object_field, if_pos hdup]
    rfl
  · intro form name eh hid
    rw [Form.add_auto_uuid_field]
    split
    · rfl
    rw [if_pos (by simp [hid])]
    rfl

/-- Witness for C8: each rejection fires on a concrete bad build step. -/
theorem c8_schema_rejection_amended_witness :
    isErr (c6Form.add_field "test" .str none false false "done" false none) = true ∧
    isErr ((Form.new "").add_field "9ab" .str none false false "done" false none) = true ∧
    isErr ((Form.new "").add_field "m" .str none false true "" false none) = true ∧
    isErr ((Form.new "").add_polymorphic_object_field "p" ["only"] "type" none false false none) = true ∧
    isErr ((Form.new "").add_polymorphic_object_field "p" ["a", "a"] "type" none false false none) = true ∧
    isErr ((Form.new "").add_polymorphic_object_field "p" ["", "b"] "type" none false false none) = true ∧
    isErr (c6Form.add_object_field "test" false false none) = true ∧
    isErr ((Form.new "").add_auto_uuid_field "9ab" none) = true :=
  ⟨c8_schema_rejection_amended.1 c6Form "test" .str none false false "done" false none (by decide),
   c8_schema_rejection_amended.2.1 (Form.new "") "9ab" .str none false false "done" false none rfl,
   c8_schema_rejection_amended.2.2.1 (Form.new "") "m" .str none false false none,
   c8_schema_rejection_amended.2.2.2.1 (Form.new "") "p" ["only"] "type" none false false none (by decide),
   c8_schema_rejection_amended.2.2.2.2.1 (Form.new "") "p" ["a", "a"] "type" none false false none (by decide),
   c8_schema_rejection_amended.2.2.2.2.2.1 (Form.new "") "p" ["", "b"] "type" none false false none (by decide),
   c8_schema_rejection_amended.2.2.2.2.2.2.1 c6Form "test" false false none (by decide),
   c8_schema_rejection_amended.2.2.2.2.2.2.2 (Form.new "") "9ab" none rfl⟩

/-- Witness for C3: "maybe" fails `bool_conv`, is consumed with an
error message, and the loop continues exactly as if started on the
remaining answers, with the identical prompt re-issued. -/
theorem c3_conversion_failure_local_witness :
    askSimpleLoop .bool false false false "done" none (-1) "test" ["maybe", "yes"] [] =
      askSimpleLoop .bool false false false "done" none (-1) "test" ["yes"]
        ["test: ", "Error: value must yes or no"] :=
  c3_conversion_failure_local.1 .bool false "done" none "test" "maybe"
    "value must yes or no" ["yes"] [] rfl (by decide)

/-- Witness for C5: the accepted answer "value one" becomes the new
fixed default of the `default_last` field. -/
theorem c5_remember_last_witness :
    ∃ out, Form._ask 6 (dleForm .str none) [] (mkW ["value one"]) =
      .ok ((["test"], .str "value one"),
           Form.mk "" [.simple "test" .str (some (.val (.str "value one"))) false false "done" true none] 0 false (-1),
           World.mk [] out 0 []) :=
  c5_remember_last.1 .str none "value one" (.str "value one") 5 [] rfl (by decide)
    (fun h => Value.noConfusion h)

end Frogcherub
